import Mathlib

/-
  Verification of the DBAgent repository's destructive-query pipeline:
  risk classifier and heuristic impact estimator
  (src/agents/impact_analysis.py), plan-probe rewriting, approval-ticket
  lifecycle, transactional execution engine and rollback logger
  (src/tools/impact_execution.py), and the auto-approval branches of the
  two workflow implementations (src/workflows/unified_query_flow.py,
  src/workflows/destructive_query_flow.py).

  The Python code manipulates SQL statements and statuses as raw strings,
  so the embedding starts from executable models of the Python string
  primitives it uses (lower/upper, strip, whitespace split, substring
  test, str.split(sep), str.replace(pat, rep, 1), int(...)), written over
  List Char so that proofs can proceed by structural induction.
-/

namespace DBAgent

/-! ### Python string primitives, modelled over List Char -/

/-- Python `s.lower()` (ASCII, as used by the repository's SQL strings). -/
def lowerL (l : List Char) : List Char := l.map Char.toLower

/-- Python `s.upper()`. -/
def upperL (l : List Char) : List Char := l.map Char.toUpper

/-- `beginsWith pat l` is true when `pat` is an initial segment of `l`. -/
def beginsWith : List Char → List Char → Bool
  | [], _ => true
  | _ :: _, [] => false
  | p :: ps, c :: cs => p == c && beginsWith ps cs

/-- Python `pat in s` (substring containment). -/
def hasSub (pat : List Char) : List Char → Bool
  | [] => beginsWith pat []
  | c :: t => beginsWith pat (c :: t) || hasSub pat t

/-- The characters after the first occurrence of `pat`, if `pat` occurs:
the tail that Python's `s.split(pat)[1:]` re-joins. -/
def afterSub (pat : List Char) : List Char → Option (List Char)
  | [] => if pat.isEmpty then some [] else none
  | c :: t =>
    if beginsWith pat (c :: t) then some ((c :: t).drop pat.length)
    else afterSub pat t

/-- The characters before the first occurrence of `pat` (all of them when
`pat` does not occur): with `afterSub` this models `s.split(pat)[1]`. -/
def upToSub (pat : List Char) : List Char → List Char
  | [] => []
  | c :: t =>
    if beginsWith pat (c :: t) then [] else c :: upToSub pat t

/-- Python `s.replace(pat, rep, 1)`: replace the first occurrence only. -/
def replOnce (pat rep : List Char) : List Char → List Char
  | [] => if pat.isEmpty then rep else []
  | c :: t =>
    if beginsWith pat (c :: t) then rep ++ (c :: t).drop pat.length
    else c :: replOnce pat rep t

/-- Python `s.strip()`: drop whitespace from both ends. -/
def trimL (l : List Char) : List Char :=
  ((l.dropWhile Char.isWhitespace).reverse.dropWhile Char.isWhitespace).reverse

/-- Worker for `pysplit`; `acc` holds the current word reversed. -/
def wsplitAux : List Char → List Char → List (List Char)
  | [], acc => if acc.isEmpty then [] else [acc.reverse]
  | c :: cs, acc =>
    if c.isWhitespace then
      if acc.isEmpty then wsplitAux cs [] else acc.reverse :: wsplitAux cs []
    else wsplitAux cs (c :: acc)

/-- Python `s.split()` with no separator: split on whitespace runs,
dropping empty words. -/
def pysplit (l : List Char) : List (List Char) := wsplitAux l []

/-- Python `' '.join(ws)`. -/
def joinSp : List (List Char) → List Char
  | [] => []
  | [w] => w
  | w :: ws => w ++ ' ' :: joinSp ws

/-- Numeric value of a nonempty all-digit character list. -/
def digitsVal : List Char → Option Nat
  | [] => none
  | [c] => if c.isDigit then some (c.toNat - '0'.toNat) else none
  | c :: t =>
    if c.isDigit then
      match digitsVal t with
      | some v => some ((c.toNat - '0'.toNat) * 10 ^ t.length + v)
      | none => none
    else none

/-- Python `int(s)` on a token with no surrounding whitespace: optional
sign followed by digits, `none` when Python would raise `ValueError`.
(Underscore digit grouping is not modelled; no caller produces it.) -/
def pyToInt (l : List Char) : Option Int :=
  match l with
  | '+' :: t => (digitsVal t).map Int.ofNat
  | '-' :: t => (digitsVal t).map (fun n => -(n : Int))
  | _ => (digitsVal l).map Int.ofNat

/-- Substring test on `String`s via the list model. -/
def hasSubS (l : List Char) (pat : String) : Bool := hasSub pat.data l

/-- A word `pysplit` can produce: nonempty and whitespace-free. -/
def goodWord (w : List Char) : Prop :=
  w ≠ [] ∧ ∀ c ∈ w, c.isWhitespace = false

instance (w : List Char) : Decidable (goodWord w) := by
  unfold goodWord
  infer_instance

/-! ### Risk classifier (src/agents/impact_analysis.py, `_classify_risk`)

Python stores the row estimate as either an `int` or the string
`"unknown"` (`isinstance(estimated_rows, str)` selects the unknown
branch), so the embedded row count is a sum of the two. -/

/-- A Python value that is either an `int` row count or a string such as
`"unknown"`. -/
inductive RowCount where
  | num (n : Int)
  | strVal (s : String)
deriving DecidableEq, Repr

/-- The fields of the `impact_estimate` dict that the classifier and the
execution pipeline read. -/
structure ImpactEstimate where
  method : String
  estimatedRows : RowCount
  confidence : String
deriving DecidableEq, Repr

/-- `risk_classification` dict produced by `_classify_risk`. -/
structure RiskClassification where
  level : String
  score : Int
  factors : List String
  estimatedRows : RowCount
  requiresApproval : Bool
deriving DecidableEq, Repr

/-- `critical_tables` list from `_classify_risk`. -/
def criticalTables : List String := ["users", "accounts", "payments", "orders"]

/-- `any(critical in table.lower() for critical in critical_tables)`. -/
def sensitiveTable (table : String) : Bool :=
  criticalTables.any (fun crit => hasSub crit.data (lowerL table.data))

/-- The body of `_classify_risk`'s `for table in affected_tables` loop:
+15 and a factor string for each sensitive table. -/
def sensStep (acc : Int × List String) (table : String) : Int × List String :=
  if sensitiveTable table then
    (acc.1 + 15, acc.2 ++ ["Critical table affected: " ++ table])
  else acc

/-- The row-count bucket of `_classify_risk`: the `isinstance(str)`
branch gives 75, otherwise the `risk_thresholds` if/elif chain. -/
def bucketScore : RowCount → Int
  | .strVal _ => 75
  | .num n =>
    if n ≤ 10 then 25
    else if n ≤ 100 then 50
    else if n ≤ 1000 then 75
    else 100

/-- `ImpactAnalysisAgent._classify_risk`.  The initial bucket level is
recomputed from the adjusted score before being returned, exactly as in
the code. -/
def classify_risk (impact : ImpactEstimate) (queryType : String)
    (affectedTables : List String) : RiskClassification :=
  let baseScore : Int := bucketScore impact.estimatedRows
  let adj1 : Int × List String :=
    if queryType = "DELETE" then
      (baseScore + 10, ["DELETE operations are irreversible"])
    else if queryType = "UPDATE" then
      (baseScore, ["UPDATE operations modify existing data"])
    else if queryType = "INSERT" then
      (baseScore - 5, ["INSERT operations add new data"])
    else (baseScore, [])
  let adj2 : Int × List String := affectedTables.foldl sensStep adj1
  let level : String :=
    if adj2.1 ≥ 90 then "CRITICAL"
    else if adj2.1 ≥ 70 then "HIGH"
    else if adj2.1 ≥ 40 then "MEDIUM"
    else "LOW"
  { level := level
    score := min adj2.1 100
    factors := adj2.2
    estimatedRows := impact.estimatedRows
    requiresApproval := level = "HIGH" ∨ level = "CRITICAL" }

/-! Spec-side rendering of claim C2, to be compared with `classify_risk`. -/

/-- Spec formula: base score from the row-count bucket (75 for an unknown
row count). -/
def baseScoreSpec : RowCount → Int
  | .strVal _ => 75
  | .num n =>
    if n ≤ 10 then 25 else if n ≤ 100 then 50 else if n ≤ 1000 then 75 else 100

/-- Spec formula: +10 for DELETE, −5 for INSERT, +0 for UPDATE. -/
def kindAdjSpec (k : String) : Int :=
  if k = "DELETE" then 10 else if k = "INSERT" then -5 else 0

/-- Spec formula: number of target tables containing a sensitive
substring. -/
def sensitiveCount (tables : List String) : Nat :=
  (tables.filter sensitiveTable).length

/-- Spec formula: clamp a score to [0, 100]. -/
def clamp01 (s : Int) : Int := max 0 (min s 100)

/-- Spec formula: level re-derived from a score. -/
def levelOfScoreSpec (s : Int) : String :=
  if s ≥ 90 then "CRITICAL"
  else if s ≥ 70 then "HIGH"
  else if s ≥ 40 then "MEDIUM"
  else "LOW"

/-- Spec formula: the adjusted sum of claim C2 — base score, plus the
statement-kind adjustment, plus 15 per sensitive target table. -/
def adjustedScoreSpec (r : RowCount) (k : String) (tables : List String) : Int :=
  baseScoreSpec r + kindAdjSpec k + 15 * (sensitiveCount tables : Int)

/-! ### Heuristic row estimator
(src/agents/impact_analysis.py, `_estimate_rows_heuristic`) -/

/-- The `int(query_lower.split('limit')[1].strip().split()[0])` parse:
`none` models the Python exception path (`IndexError`/`ValueError`). -/
def parseLimitValue (ql : List Char) : Option Int :=
  match afterSub "limit".data ql with
  | some rest =>
    match (pysplit (trimL (upToSub "limit".data rest))).head? with
    | some tok => pyToInt tok
    | none => none
  | none => none

/-- `ImpactAnalysisAgent._estimate_rows_heuristic`.  Python's `if/else`
over the WHERE test falls through to the trailing INSERT/default returns
only when no WHERE clause is present, which is inlined here. -/
def estimate_rows_heuristic (sql : String) (queryType : String) : Int :=
  let ql := lowerL sql.data
  if hasSubS ql "where" = false then
    if queryType = "DELETE" then 10000
    else if queryType = "UPDATE" then 5000
    else if queryType = "INSERT" then 1
    else 50
  else
    if hasSubS ql "id =" = true ∨ hasSubS ql "id=" = true then 1
    else if hasSubS ql "limit" = true then
      match parseLimitValue ql with
      | some v => min v 100
      | none => 50
    else 100

/-- `ImpactAnalysisAgent._estimate_query_impact` (success path): wraps the
heuristic estimate with method `"heuristic_estimation"` and confidence
`"low"`. -/
def estimate_query_impact (sql : String) (queryType : String) : ImpactEstimate :=
  { method := "heuristic_estimation"
    estimatedRows := .num (estimate_rows_heuristic sql queryType)
    confidence := "low" }

/-- Spec-side rendering of claim C7's ordered cases, to be compared with
`estimate_rows_heuristic`. -/
def heuristicClaim (sql : String) (kind : String) : Int :=
  let ql := lowerL sql.data
  if hasSubS ql "where" = false ∧ kind = "DELETE" then 10000
  else if hasSubS ql "where" = false ∧ kind = "UPDATE" then 5000
  else if hasSubS ql "where" = true ∧
      (hasSubS ql "id =" = true ∨ hasSubS ql "id=" = true) then 1
  else if hasSubS ql "where" = true ∧ hasSubS ql "limit" = true then
    match parseLimitValue ql with
    | some v => min v 100
    | none => 50
  else if hasSubS ql "where" = true then 100
  else if kind = "INSERT" then 1
  else 50

/-! ### Query-type extraction and the plan-probe rewrite
(src/tools/impact_execution.py, `_get_query_type`,
`_convert_to_explain_query`, `_extract_rows_from_plan`) -/

/-- `_get_query_type`: `sql.strip().upper()` prefix dispatch. -/
def get_query_type (sql : String) : String :=
  let qu := upperL (trimL sql.data)
  if beginsWith "UPDATE".data qu then "UPDATE"
  else if beginsWith "DELETE".data qu then "DELETE"
  else if beginsWith "INSERT".data qu then "INSERT"
  else if beginsWith "SELECT".data qu then "SELECT"
  else "UNKNOWN"

/-- Index of the first element of `parts` whose uppercasing is `WHERE`
(`-1` in Python when absent, modelled as `none`). -/
def findWhereIdx : List (List Char) → Option Nat
  | [] => none
  | p :: ps =>
    if upperL p = "WHERE".data then some 0
    else (findWhereIdx ps).map (· + 1)

/-- `_convert_to_explain_query`: rewrite a mutation into its read-only
probe.  The UPDATE branch re-joins `parts[where_index:]` with single
spaces; the DELETE branch replaces the first occurrence of the literal
`DELETE` in the original (uncased) text; INSERT and anything else have no
probe. -/
def convert_to_explain_query (sql : String) : Option String :=
  let qu := upperL (trimL sql.data)
  if beginsWith "UPDATE".data qu then
    let parts := pysplit sql.data
    if parts.length < 2 then none
    else
      let tableName := parts.getD 1 []
      match findWhereIdx parts with
      | some wi =>
        if wi > 0 then
          let whereClause := joinSp (parts.drop wi)
          some ⟨"SELECT * FROM ".data ++ tableName ++ ' ' :: whereClause⟩
        else some ⟨"SELECT * FROM ".data ++ tableName⟩
      | none => some ⟨"SELECT * FROM ".data ++ tableName⟩
  else if beginsWith "DELETE".data qu then
    if hasSub "FROM".data (upperL sql.data) then
      some ⟨replOnce "DELETE".data "SELECT *".data sql.data⟩
    else none
  else if beginsWith "INSERT".data qu then none
  else none

mutual
/-- A PostgreSQL plan-tree node as `_extract_rows_from_plan` reads it:
an optional `"Plan Rows"` field, an optional `"Rows"` field, and the
`"Plans"` child list (encoded as its own type so that mutual structural
induction is available). -/
inductive PlanNode where
  | node (planRows : Option Int) (rows : Option Int) (children : PlanForest)
inductive PlanForest where
  | nil
  | cons (c : PlanNode) (rest : PlanForest)
end

mutual
/-- `_extract_rows_from_plan`: prefer `"Plan Rows"`, then `"Rows"`, then
depth-first over the children, returning the first estimate found
(`firstRows` is the `for child_plan in plan["Plans"]` loop). -/
def extract_rows_from_plan : PlanNode → Option Int
  | .node planRows rows children =>
    match planRows with
    | some n => some n
    | none =>
      match rows with
      | some n => some n
      | none => firstRows children
def firstRows : PlanForest → Option Int
  | .nil => none
  | .cons c cs =>
    match extract_rows_from_plan c with
    | some n => some n
    | none => firstRows cs
end

/-- Spec formula (claim C9): the direct row-estimate value of one node,
preferring the `"Plan Rows"` field over `"Rows"`. -/
def nodeEstimate : PlanNode → Option Int
  | .node planRows rows _ =>
    match planRows with
    | some n => some n
    | none => rows

mutual
/-- Spec formula (claim C9): depth-first preorder of a plan tree. -/
def preNodes : PlanNode → List PlanNode
  | .node planRows rows children =>
    .node planRows rows children :: preForest children
def preForest : PlanForest → List PlanNode
  | .nil => []
  | .cons c cs => preNodes c ++ preForest cs
end

/-- Result of `_get_explain_analysis` as `analyze_query_impact` consumes
it: either an error, or a success carrying the (possibly absent) row
estimate extracted from the plan. -/
inductive ExplainAnalysis where
  | failed
  | success (estimatedRows : Option Int)
deriving DecidableEq, Repr

/-- `_get_explain_analysis`, parameterised by the plan the database
returns for the probe (`none` models a database/EXPLAIN failure). -/
def get_explain_analysis (sql : String) (planOf : String → Option PlanNode) :
    ExplainAnalysis :=
  match convert_to_explain_query sql with
  | none => .failed
  | some probe =>
    match planOf probe with
    | none => .failed
    | some plan => .success (extract_rows_from_plan plan)

/-- The impact-estimate merge step of
`ImpactExecutionOperations.analyze_query_impact`: when the EXPLAIN
analysis succeeded with a row estimate, override the agent's estimate
with it, method `"explain_analyze"`, confidence `"high"`. -/
def merge_explain_estimate (agentEstimate : ImpactEstimate)
    (explain : ExplainAnalysis) : ImpactEstimate :=
  match explain with
  | .success (some rows) =>
    { method := "explain_analyze", estimatedRows := .num rows, confidence := "high" }
  | _ => agentEstimate

/-! ### Transactional execution engine
(src/tools/impact_execution.py, `_execute_with_transaction`)

The database is modelled as an oracle saying which of the psycopg2 calls
raise: `connect`, the explicit `BEGIN`, the statement itself (returning a
row count on success), `COMMIT`, and `rollback`.  The fetch of a result
set for probes that start with SELECT is orthogonal to every claim and is
not modelled. -/

structure DbBehavior where
  connectOk : Bool
  beginOk : Bool
  execOutcome : Except String Int
  commitOk : Bool
  rollbackOk : Bool
deriving Repr

/-- What `_execute_with_transaction` returns and does with its
connection. -/
structure ExecOutcome where
  success : Bool
  rowsAffected : Option Int
  transactionStatus : String
  connOpened : Bool
  connClosed : Bool
deriving DecidableEq, Repr

/-- The shared `except` branch: roll back if a connection exists, then
close it in `finally`. -/
def rollbackOutcome (db : DbBehavior) : ExecOutcome :=
  { success := false
    rowsAffected := none
    transactionStatus := if db.rollbackOk then "rolled_back" else "rollback_failed"
    connOpened := true
    connClosed := true }

/-- `ImpactExecutionOperations._execute_with_transaction`. -/
def execute_with_transaction (db : DbBehavior) : ExecOutcome :=
  if db.connectOk = false then
    { success := false, rowsAffected := none, transactionStatus := "no_connection"
      connOpened := false, connClosed := false }
  else if db.beginOk = false then rollbackOutcome db
  else
    match db.execOutcome with
    | .error _ => rollbackOutcome db
    | .ok rowsAffected =>
      if db.commitOk = false then rollbackOutcome db
      else
        { success := true, rowsAffected := some rowsAffected
          transactionStatus := "committed", connOpened := true, connClosed := true }

/-! ### Approval-ticket store
(src/tools/impact_execution.py, `create_approval_request`,
`check_approval_status`, `update_approval_status`,
`execute_approved_query`, `rollback_operation`)

Tickets live in Redis under a TTL.  A stored value is paired with its
absolute store deadline (`setex` with 86400 seconds sets it to
`now + 86400`); `storeGet` returns nothing once the deadline has passed,
which is Redis expiring the key.  The JSON payload's own `expires_at`
field is a separate `Ticket` field: `check_approval_status` compares the
current time against it and deletes the record when it has passed.
Approver/requester dicts are abstracted to string labels; none of their
contents is read by the modelled code. -/

structure HistoryEntry where
  timestamp : Nat
  oldStatus : String
  newStatus : String
  approverInfo : String
  comments : Option String
deriving DecidableEq, Repr

/-- The parts of the stored `impact_analysis` payload and its derived
`metadata` that the pipeline reads back (risk level, row estimate,
affected tables, approval flag). -/
structure ImpactAnalysisData where
  riskLevel : String
  estimatedRows : RowCount
  affectedTables : List String
  requiresApproval : Bool
deriving DecidableEq, Repr

/-- The persisted `approval_request` JSON document. -/
structure Ticket where
  ticketId : String
  status : String
  sqlQuery : String
  impact : ImpactAnalysisData
  requesterInfo : String
  createdAt : Nat
  expiresAt : Nat
  updatedAt : Option Nat
  history : List HistoryEntry
deriving DecidableEq, Repr

/-- `operation_info` keys that `rollback_operation` reads. -/
structure OperationInfo where
  reason : Option String
  requestedBy : Option String
deriving DecidableEq, Repr

/-- The rollback log document at the moment it is persisted (step 4 of
`rollback_operation`; the `redis_logged`, `recommendations` and
`ticket_updated` keys are added to the in-memory dict only after the
`setex`). -/
structure StoredRollbackLog where
  ticketId : String
  requestedAt : Nat
  operationInfo : OperationInfo
  rollbackMethod : String
  status : String
  originalQuery : Option String
  riskLevel : Option String
  affectedTables : Option (List String)
  retrievalError : Option String
deriving DecidableEq, Repr

structure RollbackRecommendations where
  immediateActions : List String
  rollbackStrategies : List String
  preventionMeasures : List String
  escalationRequired : Bool
deriving DecidableEq, Repr

/-- The Redis state threaded through the ticket operations, plus its
reachability flag (`redis_client.is_connected()`). -/
structure StoreState where
  connected : Bool
  tickets : String → Option (Ticket × Nat)
  rollbackLogs : String → Option (StoredRollbackLog × Nat)

/-- Redis `get`: a key is visible only before its store deadline. -/
def storeGet (s : StoreState) (now : Nat) (id : String) : Option Ticket :=
  match s.tickets id with
  | some (t, deadline) => if now < deadline then some t else none
  | none => none

/-- Redis `setex` for a ticket document. -/
def setTicket (s : StoreState) (id : String) (t : Ticket) (deadline : Nat) :
    StoreState :=
  { s with tickets := fun k => if k = id then some (t, deadline) else s.tickets k }

/-- Redis `delete` for a ticket document. -/
def delTicket (s : StoreState) (id : String) : StoreState :=
  { s with tickets := fun k => if k = id then none else s.tickets k }

/-- 24-hour ticket TTL, in seconds. -/
def ttlSeconds : Nat := 86400

/-- 7-day rollback-log TTL, in seconds. -/
def rollbackTtlSeconds : Nat := 604800

inductive CheckResult where
  | storeError
  | notFound
  | expired (expiredAt : Nat)
  | found (t : Ticket) (isApproved : Bool) (isRejected : Bool) (timeRemaining : Int)
deriving DecidableEq, Repr

/-- `ImpactExecutionOperations.check_approval_status`. -/
def check_approval_status (s : StoreState) (now : Nat) (id : String) :
    CheckResult × StoreState :=
  if s.connected = false then (.storeError, s)
  else
    match storeGet s now id with
    | none => (.notFound, s)
    | some t =>
      if now > t.expiresAt then (.expired t.expiresAt, delTicket s id)
      else
        (.found t (t.status == "APPROVED") (t.status == "REJECTED")
          ((t.expiresAt : Int) - (now : Int)), s)

inductive CreateResult where
  | storeError
  | created (t : Ticket)
deriving DecidableEq, Repr

/-- `ImpactExecutionOperations.create_approval_request`; the fresh UUID
is passed in as `freshId`. -/
def create_approval_request (s : StoreState) (now : Nat) (freshId : String)
    (sql : String) (impact : ImpactAnalysisData) (requester : String) :
    CreateResult × StoreState :=
  if s.connected = false then (.storeError, s)
  else
    let t : Ticket :=
      { ticketId := freshId, status := "PENDING_APPROVAL", sqlQuery := sql
        impact := impact, requesterInfo := requester, createdAt := now
        expiresAt := now + ttlSeconds, updatedAt := none, history := [] }
    (.created t, setTicket s freshId t (now + ttlSeconds))

inductive UpdateResult where
  | storeError
  | notOk (r : CheckResult)
  | updated (oldStatus : String) (newStatus : String) (t : Ticket)
deriving DecidableEq, Repr

/-- `ImpactExecutionOperations.update_approval_status`: re-check the
ticket, append one history entry, set the status, persist with a fresh
24-hour `setex` window.  The payload's `expires_at` field is not
touched. -/
def update_approval_status (s : StoreState) (now : Nat) (id : String)
    (newStatus : String) (approver : String) (comments : Option String) :
    UpdateResult × StoreState :=
  if s.connected = false then (.storeError, s)
  else
    match check_approval_status s now id with
    | (.found t _ _ _, s1) =>
      let entry : HistoryEntry :=
        { timestamp := now, oldStatus := t.status, newStatus := newStatus
          approverInfo := approver, comments := comments }
      let t' : Ticket :=
        { t with status := newStatus, updatedAt := some now
                 history := t.history ++ [entry] }
      (.updated t.status newStatus t', setTicket s1 id t' (now + ttlSeconds))
    | (r, s1) => (.notOk r, s1)

inductive ExecResult where
  | ticketNotFound
  | notApproved (current : String)
  | missingQuery
  | invalidQueryType (qt : String)
  | ran (outcome : ExecOutcome)
deriving DecidableEq, Repr

/-- `ImpactExecutionOperations.execute_approved_query`.  The third
component records whether a relational-database call was issued (i.e.
whether `_execute_with_transaction` ran).  The post-execution comment
text is abbreviated; the EXECUTION_ERROR branch guards a Python
exception that no modelled step raises. -/
def execute_approved_query (s : StoreState) (now : Nat) (id : String)
    (db : DbBehavior) (executor : String) : ExecResult × StoreState × Bool :=
  match check_approval_status s now id with
  | (.found t _ _ _, s1) =>
    if t.status ≠ "APPROVED" then (.notApproved t.status, s1, false)
    else if t.sqlQuery = "" then (.missingQuery, s1, false)
    else
      let qt := get_query_type t.sqlQuery
      if qt ≠ "UPDATE" ∧ qt ≠ "DELETE" ∧ qt ≠ "INSERT" then
        (.invalidQueryType qt, s1, false)
      else
        let outcome := execute_with_transaction db
        let s2 :=
          if outcome.success then
            (update_approval_status s1 now id "EXECUTED" executor
              (some "Query executed successfully")).2
          else
            (update_approval_status s1 now id "EXECUTION_FAILED" executor
              (some "Query execution failed")).2
        (.ran outcome, s2, true)
  | (_, s1) => (.ticketNotFound, s1, false)

/-- `ImpactExecutionOperations._generate_rollback_recommendations`. -/
def generate_rollback_recommendations (riskLevel : String)
    (originalQuery : String) : RollbackRecommendations :=
  let riskUp : List Char := upperL riskLevel.data
  let queryUp : List Char := upperL originalQuery.data
  let esc : Bool := riskUp == "HIGH".data || riskUp == "CRITICAL".data
  { immediateActions :=
      if esc then
        ["Notify database administrator immediately",
         "Stop all related operations",
         "Assess data integrity impact"]
      else []
    rollbackStrategies :=
      if hasSub "DELETE".data queryUp then
        ["Restore deleted data from most recent backup",
         "Check if soft delete option is available",
         "Verify referential integrity after restore"]
      else if hasSub "UPDATE".data queryUp then
        ["Restore original values from backup",
         "Use transaction log to identify changed records",
         "Consider point-in-time recovery if available"]
      else if hasSub "INSERT".data queryUp then
        ["Delete inserted records using primary keys",
         "Check for cascade effects on related tables",
         "Verify constraint violations after cleanup"]
      else []
    preventionMeasures :=
      ["Review approval workflow for this type of operation",
       "Implement additional validation checks",
       "Consider requiring backup verification before execution",
       "Add rollback testing to approval process"]
    escalationRequired := esc }

/-- What `rollback_operation` returns: the `status`/`rollback_info`
payload, with the keys added after persistence kept alongside the stored
document. -/
structure RollbackResult where
  status : String
  info : StoredRollbackLog
  redisLogged : Bool
  recommendations : RollbackRecommendations
  ticketUpdated : Bool
deriving DecidableEq, Repr

/-- `ImpactExecutionOperations.rollback_operation`.  The ticket lookup
goes through `check_approval_status`, which returns (never raises) on an
absent ticket, so `retrieval_error` is recorded only on a raising lookup
— a path no modelled step takes.  `ticket_updated` is set to `True`
whenever `update_approval_status` returns without raising, regardless of
its result.  The final component records that no relational-database
call is issued. -/
def rollback_operation (s : StoreState) (now : Nat) (id : String)
    (opInfo : OperationInfo) : RollbackResult × StoreState × Bool :=
  let base : StoredRollbackLog :=
    { ticketId := id, requestedAt := now, operationInfo := opInfo
      rollbackMethod := "logging_fallback", status := "logged"
      originalQuery := none, riskLevel := none, affectedTables := none
      retrievalError := none }
  let chk := check_approval_status s now id
  let info : StoredRollbackLog :=
    match chk.1 with
    | .found t _ _ _ =>
      { base with originalQuery := some t.sqlQuery
                  riskLevel := some t.impact.riskLevel
                  affectedTables := some t.impact.affectedTables }
    | _ => base
  let s1 := chk.2
  let logged : Bool × StoreState :=
    if s1.connected then
      (true,
       { s1 with rollbackLogs := fun k =>
           if k = id then some (info, now + rollbackTtlSeconds)
           else s1.rollbackLogs k })
    else (false, s1)
  let recs := generate_rollback_recommendations (info.riskLevel.getD "unknown")
    (info.originalQuery.getD "")
  let s3 := (update_approval_status logged.2 now id "ROLLBACK_REQUESTED"
    (opInfo.requestedBy.getD "system")
    (some "Rollback operation logged. Manual intervention required.")).2
  ({ status := "logged", info := info, redisLogged := logged.1
     recommendations := recs, ticketUpdated := true }, s3, false)

/-! ### Workflow auto-approval branches
(src/workflows/unified_query_flow.py `_execute_destructive_node`,
src/workflows/destructive_query_flow.py `_execute_query_node`) -/

/-- The literal dict the unified workflow fabricates on its
`approval_required == False` branch. -/
structure StubExecution where
  status : String
  message : String
  rowsAffected : Int
  transactionStatus : String
deriving DecidableEq, Repr

/-- `UnifiedQueryWorkflow._execute_destructive_node`, auto-approved
branch: no ticket operation, no database call, a hard-coded success
payload. -/
def unified_auto_execute (s : StoreState) : StubExecution × StoreState × Bool :=
  ({ status := "success"
     message := "Auto-approved query executed successfully"
     rowsAffected := 0
     transactionStatus := "committed" }, s, false)

inductive AutoPathResult where
  | createFailed
  | approveFailed
  | executed (ticketId : String) (r : ExecResult)
deriving DecidableEq, Repr

/-- `DestructiveQueryWorkflow._execute_query_node`, auto-approved branch:
create a temporary ticket, immediately approve it, then run it through
`execute_approved_query`. -/
def destructive_auto_execute (s : StoreState) (now : Nat) (freshId : String)
    (sql : String) (impact : ImpactAnalysisData) (db : DbBehavior) :
    AutoPathResult × StoreState × Bool :=
  match create_approval_request s now freshId sql impact
      "destructive_query_langgraph" with
  | (.storeError, s1) => (.createFailed, s1, false)
  | (.created _, s1) =>
    match update_approval_status s1 now freshId "APPROVED" "system"
        (some "Auto-approved due to LOW/MEDIUM risk level") with
    | (.updated _ _ _, s2) =>
      let out := execute_approved_query s2 now freshId db "system"
      (.executed freshId out.1, out.2.1, out.2.2)
    | (_, s2) => (.approveFailed, s2, false)

/-! ### Concrete fixtures used by witnesses and counterexamples -/

/-- Impact payload of the spec's `UPDATE users` scenario. -/
def sampleImpact : ImpactAnalysisData :=
  { riskLevel := "MEDIUM", estimatedRows := .num 1
    affectedTables := ["users"], requiresApproval := false }

/-- A freshly created, still pending ticket. -/
def pendingTicket : Ticket :=
  { ticketId := "t1", status := "PENDING_APPROVAL"
    sqlQuery := "UPDATE users SET x = 1 WHERE id = 5", impact := sampleImpact
    requesterInfo := "tester", createdAt := 0, expiresAt := ttlSeconds
    updatedAt := none, history := [] }

/-- An approved ticket whose stored statement is a SELECT, for the
statement-kind re-validation path. -/
def selectTicket : Ticket :=
  { ticketId := "t2", status := "APPROVED"
    sqlQuery := "SELECT * FROM users", impact := sampleImpact
    requesterInfo := "tester", createdAt := 0, expiresAt := ttlSeconds
    updatedAt := none, history := [] }

/-- A reachable store holding exactly one ticket, keyed by its id, with
store deadline equal to the ticket's own expiry. -/
def storeWith (t : Ticket) : StoreState :=
  { connected := true
    tickets := fun k => if k = t.ticketId then some (t, t.expiresAt) else none
    rollbackLogs := fun _ => none }

/-- A reachable store holding nothing. -/
def emptyStore : StoreState :=
  { connected := true, tickets := fun _ => none, rollbackLogs := fun _ => none }

/-- A database run where everything succeeds and 3 rows are affected. -/
def sampleDb : DbBehavior :=
  { connectOk := true, beginOk := true, execOutcome := .ok 3
    commitOk := true, rollbackOk := true }

/-- A store whose Redis deadline was slid past the ticket's own
`expires_at` by an update, so that application-level expiry is
observable. -/
def slidStore : StoreState :=
  { connected := true
    tickets := fun k => if k = "t1" then some (pendingTicket, 200000) else none
    rollbackLogs := fun _ => none }

/-- An approved ticket holding an UPDATE, ready for execution. -/
def approvedTicket : Ticket :=
  { ticketId := "t3", status := "APPROVED"
    sqlQuery := "UPDATE users SET x = 1 WHERE id = 5", impact := sampleImpact
    requesterInfo := "tester", createdAt := 0, expiresAt := ttlSeconds
    updatedAt := none, history := [] }

/-- The status-transition edges of spec §4.3, as claim C6 words them:
PENDING_APPROVAL → APPROVED/REJECTED/EXPIRED, APPROVED →
EXECUTED/EXECUTION_FAILED/EXECUTION_ERROR, and any state →
ROLLBACK_REQUESTED. -/
def allowedEdgeSpec (oldS newS : String) : Prop :=
  (oldS = "PENDING_APPROVAL"
    ∧ (newS = "APPROVED" ∨ newS = "REJECTED" ∨ newS = "EXPIRED"))
  ∨ (oldS = "APPROVED"
    ∧ (newS = "EXECUTED" ∨ newS = "EXECUTION_FAILED" ∨ newS = "EXECUTION_ERROR"))
  ∨ newS = "ROLLBACK_REQUESTED"

instance (oldS newS : String) : Decidable (allowedEdgeSpec oldS newS) := by
  unfold allowedEdgeSpec
  infer_instance

/-- The (oldStatus, newStatus) transition an update result realized,
when it succeeded. -/
def updateTransition : UpdateResult → Option (String × String)
  | .updated o n _ => some (o, n)
  | _ => none

/-! ## Theorems -/

/-! ### Claim C2: risk classifier -/

theorem bucketScore_eq_spec (r : RowCount) : bucketScore r = baseScoreSpec r := by
  cases r <;> rfl

theorem bucketScore_ge (r : RowCount) : 25 ≤ bucketScore r := by
  cases r with
  | strVal s => norm_num [bucketScore]
  | num n => simp only [bucketScore]; split_ifs <;> norm_num

theorem sensStep_fold_score (tables : List String) (p : Int × List String) :
    (tables.foldl sensStep p).1 = p.1 + 15 * (sensitiveCount tables : Int) := by
  induction tables generalizing p with
  | nil => simp [sensitiveCount]
  | cons t ts ih =>
    by_cases h : sensitiveTable t
    · simp only [List.foldl_cons, sensStep, h, if_true, ih, sensitiveCount,
        List.filter_cons, List.length_cons]
      push_cast
      ring
    · simp only [List.foldl_cons, sensStep, h, if_false, ih, sensitiveCount,
        List.filter_cons]
      simp only [show sensitiveTable t = false from by simpa using h,
        Bool.false_eq_true, if_false]

theorem clamp01_of_nonneg {s : Int} (h : 0 ≤ s) : min s 100 = clamp01 s := by
  unfold clamp01
  exact (max_eq_right (le_min h (by norm_num))).symm

theorem levelOfScoreSpec_clamp {s : Int} (h : 0 ≤ s) :
    levelOfScoreSpec (clamp01 s) = levelOfScoreSpec s := by
  unfold clamp01 levelOfScoreSpec
  rcases le_total s 100 with h1 | h1
  · rw [min_eq_left h1, max_eq_right h]
  · rw [min_eq_right h1, max_eq_right (by norm_num : (0 : Int) ≤ 100)]
    rw [if_pos (by norm_num), if_pos (by omega)]

/-- Claim C2: for statement kinds UPDATE, DELETE, INSERT, the classifier's
score is the spec's adjusted sum (row-count bucket base, kind adjustment,
+15 per sensitive table) clamped to [0, 100]; its level is re-derived
from that clamped score by the 90/70/40 thresholds; and requiresApproval
holds exactly when the level is HIGH or CRITICAL. -/
theorem risk_matches_spec (impact : ImpactEstimate) (k : String)
    (tables : List String)
    (hk : k = "UPDATE" ∨ k = "DELETE" ∨ k = "INSERT") :
    (classify_risk impact k tables).score
        = clamp01 (adjustedScoreSpec impact.estimatedRows k tables)
      ∧ (classify_risk impact k tables).level
        = levelOfScoreSpec (clamp01 (adjustedScoreSpec impact.estimatedRows k tables))
      ∧ ((classify_risk impact k tables).requiresApproval = true
          ↔ ((classify_risk impact k tables).level = "HIGH"
              ∨ (classify_risk impact k tables).level = "CRITICAL")) := by
  have hbase := bucketScore_ge impact.estimatedRows
  rcases hk with hk | hk | hk <;> subst hk <;>
    simp only [classify_risk, adjustedScoreSpec, sensStep_fold_score,
      ← bucketScore_eq_spec, kindAdjSpec, String.reduceEq, reduceIte, add_zero,
      sub_eq_add_neg] <;>
    refine ⟨by unfold clamp01; omega, ?_, by
      constructor
      · intro h
        simpa using of_decide_eq_true h
      · intro h
        exact decide_eq_true (by simpa using h)⟩ <;>
  · rw [levelOfScoreSpec_clamp (by omega)]
    rfl

/-- Witness for C2: the kind hypothesis holds at `"DELETE"`, and the
classification of the spec's `DELETE FROM logs` scenario (estimate 10000,
non-sensitive table) matches the spec formula. -/
theorem risk_matches_spec_witness :
    (("DELETE" : String) = "UPDATE" ∨ ("DELETE" : String) = "DELETE"
        ∨ ("DELETE" : String) = "INSERT")
      ∧ ((classify_risk ⟨"heuristic_estimation", .num 10000, "low"⟩ "DELETE"
            ["logs"]).score
          = clamp01 (adjustedScoreSpec (.num 10000) "DELETE" ["logs"])
        ∧ (classify_risk ⟨"heuristic_estimation", .num 10000, "low"⟩ "DELETE"
            ["logs"]).level
          = levelOfScoreSpec (clamp01 (adjustedScoreSpec (.num 10000) "DELETE" ["logs"]))
        ∧ ((classify_risk ⟨"heuristic_estimation", .num 10000, "low"⟩ "DELETE"
              ["logs"]).requiresApproval = true
            ↔ ((classify_risk ⟨"heuristic_estimation", .num 10000, "low"⟩ "DELETE"
                  ["logs"]).level = "HIGH"
                ∨ (classify_risk ⟨"heuristic_estimation", .num 10000, "low"⟩ "DELETE"
                    ["logs"]).level = "CRITICAL"))) :=
  ⟨Or.inr (Or.inl rfl),
   risk_matches_spec ⟨"heuristic_estimation", .num 10000, "low"⟩ "DELETE" ["logs"]
     (Or.inr (Or.inl rfl))⟩

/-! ### Claim C7: heuristic row estimator -/

theorem heuristic_eq_claim_cases (sql kind : String) :
    estimate_rows_heuristic sql kind = heuristicClaim sql kind := by
  unfold estimate_rows_heuristic heuristicClaim
  by_cases hw : hasSubS (lowerL sql.data) "where" = false <;>
    by_cases hid : hasSubS (lowerL sql.data) "id =" = true
        ∨ hasSubS (lowerL sql.data) "id=" = true <;>
      by_cases hl : hasSubS (lowerL sql.data) "limit" = true <;>
        by_cases hk1 : kind = "DELETE" <;>
          by_cases hk2 : kind = "UPDATE" <;>
            by_cases hk3 : kind = "INSERT" <;>
              simp_all

/-- Claim C7: the fallback heuristic estimator implements exactly the
claim's ordered cases (no WHERE: 10000 for DELETE / 5000 for UPDATE;
WHERE with an `id =`/`id=` equality: 1; WHERE with a LIMIT:
min(parsed, 100) or 50 when unparsable; any other WHERE: 100; INSERT: 1;
otherwise 50), and `_estimate_query_impact` reports it with confidence
"low". -/
theorem heuristic_estimator_matches_claim (sql kind : String) :
    (estimate_query_impact sql kind).confidence = "low"
      ∧ (estimate_query_impact sql kind).method = "heuristic_estimation"
      ∧ (estimate_query_impact sql kind).estimatedRows
          = .num (heuristicClaim sql kind) := by
  refine ⟨rfl, rfl, ?_⟩
  show RowCount.num (estimate_rows_heuristic sql kind) = _
  rw [heuristic_eq_claim_cases]

/-! ### Claim C4: transactional execution engine -/

/-- Claim C4: when the stored statement raises after a connection was
opened, `_execute_with_transaction` reports failure with
transactionStatus rolled_back or rollback_failed (never committed) and no
rowsAffected; and whenever a connection was opened it is closed, on the
success path and on both error paths alike. -/
theorem execute_transaction_error_handling (db : DbBehavior)
    (hconn : db.connectOk = true) :
    (∀ e, db.execOutcome = .error e →
        (execute_with_transaction db).success = false
          ∧ ((execute_with_transaction db).transactionStatus = "rolled_back"
              ∨ (execute_with_transaction db).transactionStatus = "rollback_failed")
          ∧ (execute_with_transaction db).transactionStatus ≠ "committed"
          ∧ (execute_with_transaction db).rowsAffected = none)
      ∧ (execute_with_transaction db).connOpened = true
      ∧ (execute_with_transaction db).connClosed = true := by
  rcases db with ⟨co, bo, eo, cmo, ro⟩
  simp only at hconn
  subst hconn
  unfold execute_with_transaction rollbackOutcome
  cases bo <;> rcases eo with e | rc <;> cases cmo <;> cases ro <;> simp_all

/-- Witness for C4: a run whose UPDATE raises a database error after the
connection opened is rolled back, reports no rows, and closes the
connection. -/
theorem execute_transaction_error_handling_witness :
    (DbBehavior.mk true true (.error "duplicate key") true true).connectOk = true
      ∧ ((∀ e, (DbBehavior.mk true true (.error "duplicate key") true true).execOutcome
              = .error e →
            (execute_with_transaction
                (DbBehavior.mk true true (.error "duplicate key") true true)).success = false
              ∧ ((execute_with_transaction
                    (DbBehavior.mk true true (.error "duplicate key") true true)).transactionStatus
                    = "rolled_back"
                  ∨ (execute_with_transaction
                      (DbBehavior.mk true true (.error "duplicate key") true true)).transactionStatus
                      = "rollback_failed")
              ∧ (execute_with_transaction
                  (DbBehavior.mk true true (.error "duplicate key") true true)).transactionStatus
                  ≠ "committed"
              ∧ (execute_with_transaction
                  (DbBehavior.mk true true (.error "duplicate key") true true)).rowsAffected = none)
          ∧ (execute_with_transaction
              (DbBehavior.mk true true (.error "duplicate key") true true)).connOpened = true
          ∧ (execute_with_transaction
              (DbBehavior.mk true true (.error "duplicate key") true true)).connClosed = true) :=
  ⟨rfl, execute_transaction_error_handling
    (DbBehavior.mk true true (.error "duplicate key") true true) rfl⟩

/-! ### Claim C1: execution is gated on approval and statement kind -/

/-- Claim C1: when every ticket the status check can find is not
APPROVED (covering pending, rejected, expired and absent tickets),
`execute_approved_query` returns a not-found or not-approved error and
issues no database call; and for any found ticket whose stored statement
kind is not exactly UPDATE, DELETE or INSERT, the run never reaches the
database either. -/
theorem execute_gated_on_approval (s : StoreState) (now : Nat) (id : String)
    (db : DbBehavior) (executor : String) :
    ((∀ t a r tr, (check_approval_status s now id).1 = .found t a r tr
          → t.status ≠ "APPROVED")
        → ((execute_approved_query s now id db executor).1 = .ticketNotFound
              ∨ ∃ cur, (execute_approved_query s now id db executor).1
                    = .notApproved cur ∧ cur ≠ "APPROVED")
          ∧ (execute_approved_query s now id db executor).2.2 = false)
      ∧ (∀ t a r tr, (check_approval_status s now id).1 = .found t a r tr
          → get_query_type t.sqlQuery ≠ "UPDATE"
          → get_query_type t.sqlQuery ≠ "DELETE"
          → get_query_type t.sqlQuery ≠ "INSERT"
          → (∀ outcome, (execute_approved_query s now id db executor).1
                ≠ .ran outcome)
            ∧ (execute_approved_query s now id db executor).2.2 = false) := by
  rcases hchk : check_approval_status s now id with ⟨cr, s1⟩
  constructor
  · intro hna
    cases cr with
    | found t a r tr =>
      have hst : t.status ≠ "APPROVED" := hna t a r tr rfl
      simp only [execute_approved_query, hchk, if_pos hst]
      exact ⟨Or.inr ⟨t.status, rfl, hst⟩, trivial⟩
    | storeError => simp [execute_approved_query, hchk]
    | notFound => simp [execute_approved_query, hchk]
    | expired e => simp [execute_approved_query, hchk]
  · intro t a r tr hfound h1 h2 h3
    have hcr : cr = CheckResult.found t a r tr := hfound
    subst hcr
    simp only [execute_approved_query, hchk]
    refine ⟨fun outcome => ?_, ?_⟩
    · split_ifs with hst hq hk
      all_goals first
        | exact absurd ⟨h1, h2, h3⟩ hk
        | exact fun h => nomatch h
    · split_ifs with hst hq hk
      all_goals first
        | exact absurd ⟨h1, h2, h3⟩ hk
        | rfl

/-- Witness for C1: a pending ticket is rejected without a database
call, and an approved ticket holding a SELECT fails kind re-validation
without a database call. -/
theorem execute_gated_on_approval_witness :
    ((∀ t a r tr,
        (check_approval_status (storeWith pendingTicket) 100 "t1").1 = .found t a r tr
          → t.status ≠ "APPROVED")
      ∧ (((execute_approved_query (storeWith pendingTicket) 100 "t1" sampleDb
              "ops").1 = .ticketNotFound
            ∨ ∃ cur, (execute_approved_query (storeWith pendingTicket) 100 "t1"
                  sampleDb "ops").1 = .notApproved cur ∧ cur ≠ "APPROVED")
          ∧ (execute_approved_query (storeWith pendingTicket) 100 "t1" sampleDb
              "ops").2.2 = false))
    ∧ ((check_approval_status (storeWith selectTicket) 100 "t2").1
          = .found selectTicket true false ((ttlSeconds : Int) - 100)
      ∧ get_query_type selectTicket.sqlQuery ≠ "UPDATE"
      ∧ get_query_type selectTicket.sqlQuery ≠ "DELETE"
      ∧ get_query_type selectTicket.sqlQuery ≠ "INSERT"
      ∧ ((∀ outcome, (execute_approved_query (storeWith selectTicket) 100 "t2"
              sampleDb "ops").1 ≠ .ran outcome)
          ∧ (execute_approved_query (storeWith selectTicket) 100 "t2" sampleDb
              "ops").2.2 = false)) := by
  have hpend : ∀ t a r tr,
      (check_approval_status (storeWith pendingTicket) 100 "t1").1 = .found t a r tr
        → t.status ≠ "APPROVED" := by
    intro t a r tr h
    rw [show (check_approval_status (storeWith pendingTicket) 100 "t1").1
        = CheckResult.found pendingTicket false false ((ttlSeconds : Int) - 100)
      from by decide] at h
    cases h
    decide
  have hsel : (check_approval_status (storeWith selectTicket) 100 "t2").1
      = .found selectTicket true false ((ttlSeconds : Int) - 100) := by decide
  refine ⟨⟨hpend, (execute_gated_on_approval (storeWith pendingTicket) 100 "t1"
      sampleDb "ops").1 hpend⟩,
    hsel, by decide, by decide, by decide,
    (execute_gated_on_approval (storeWith selectTicket) 100 "t2" sampleDb "ops").2
      selectTicket true false ((ttlSeconds : Int) - 100) hsel
      (by decide) (by decide) (by decide)⟩

/-! ### Claim C5: checkStatus — not found, expiry deletion, snapshot -/

/-- Claim C5: with the store reachable, `check_approval_status` reports
not-found when no record is visible; when the record exists and now is
past its `expires_at` it deletes the record and reports expired, so a
subsequent check on the same id observes absence; and otherwise it
returns the stored snapshot with isApproved/isRejected derived from the
status and the remaining time. -/
theorem check_status_behaviour (s : StoreState) (now : Nat) (id : String)
    (hconn : s.connected = true) :
    (storeGet s now id = none
        → check_approval_status s now id = (.notFound, s))
      ∧ (∀ t, storeGet s now id = some t → now > t.expiresAt
          → check_approval_status s now id = (.expired t.expiresAt, delTicket s id)
            ∧ ((check_approval_status s now id).2).tickets id = none
            ∧ ∀ now2, (check_approval_status (check_approval_status s now id).2
                  now2 id).1 = .notFound)
      ∧ (∀ t, storeGet s now id = some t → ¬ now > t.expiresAt
          → check_approval_status s now id
              = (.found t (t.status == "APPROVED") (t.status == "REJECTED")
                  ((t.expiresAt : Int) - (now : Int)), s)) := by
  refine ⟨?_, ?_, ?_⟩
  · intro h
    simp [check_approval_status, hconn, h]
  · intro t ht hexp
    have e : check_approval_status s now id = (.expired t.expiresAt, delTicket s id) := by
      simp [check_approval_status, hconn, ht, hexp]
    refine ⟨e, ?_, ?_⟩
    · rw [e]
      simp [delTicket]
    · intro now2
      rw [e]
      simp [check_approval_status, delTicket, storeGet, hconn]
  · intro t ht hexp
    simp [check_approval_status, hconn, ht, hexp]

/-- Witness for C5: an absent id reports not-found; a ticket whose
`expires_at` has passed (while its Redis deadline, slid by an update,
has not) is deleted and subsequently absent; a live pending ticket is
returned with its derived flags and remaining time. -/
theorem check_status_behaviour_witness :
    (emptyStore.connected = true
      ∧ storeGet emptyStore 5 "zzz" = none
      ∧ check_approval_status emptyStore 5 "zzz" = (.notFound, emptyStore))
    ∧ (slidStore.connected = true
      ∧ storeGet slidStore 100000 "t1" = some pendingTicket
      ∧ 100000 > pendingTicket.expiresAt
      ∧ (check_approval_status slidStore 100000 "t1"
            = (.expired pendingTicket.expiresAt, delTicket slidStore "t1")
          ∧ ((check_approval_status slidStore 100000 "t1").2).tickets "t1" = none
          ∧ ∀ now2, (check_approval_status
              (check_approval_status slidStore 100000 "t1").2 now2 "t1").1
                = .notFound))
    ∧ ((storeWith pendingTicket).connected = true
      ∧ storeGet (storeWith pendingTicket) 100 "t1" = some pendingTicket
      ∧ ¬ 100 > pendingTicket.expiresAt
      ∧ check_approval_status (storeWith pendingTicket) 100 "t1"
          = (.found pendingTicket (pendingTicket.status == "APPROVED")
              (pendingTicket.status == "REJECTED")
              ((pendingTicket.expiresAt : Int) - (100 : Int)), storeWith pendingTicket)) := by
  refine ⟨⟨rfl, rfl, ?_⟩, ⟨rfl, rfl, by decide, ?_⟩, ⟨rfl, rfl, by decide, ?_⟩⟩
  · exact (check_status_behaviour emptyStore 5 "zzz" rfl).1 rfl
  · exact (check_status_behaviour slidStore 100000 "t1" rfl).2.1 pendingTicket rfl
      (by decide)
  · exact (check_status_behaviour (storeWith pendingTicket) 100 "t1" rfl).2.2
      pendingTicket rfl (by decide)

/-! ### Claim C8: updateStatus — history append, status set, TTL slide -/

/-- Claim C8: on a reachable store, `update_approval_status` first
re-validates the ticket through `check_approval_status` (existence and
non-expiry); on a found ticket it appends exactly one history entry
{timestamp, oldStatus, newStatus, approverInfo, comments}, sets the
status, and persists with a fresh full TTL window `now + 86400`, leaving
the payload `expires_at` as it was; on any non-found check outcome it
writes nothing. -/
theorem update_status_behaviour (s : StoreState) (now : Nat) (id : String)
    (ns approver : String) (comments : Option String)
    (hconn : s.connected = true) :
    (∀ t a r tr, (check_approval_status s now id).1 = .found t a r tr →
        update_approval_status s now id ns approver comments
          = (.updated t.status ns
              { t with status := ns, updatedAt := some now
                       history := t.history
                         ++ [⟨now, t.status, ns, approver, comments⟩] },
             setTicket (check_approval_status s now id).2 id
               { t with status := ns, updatedAt := some now
                        history := t.history
                          ++ [⟨now, t.status, ns, approver, comments⟩] }
               (now + ttlSeconds))
          ∧ (update_approval_status s now id ns approver comments).2.tickets id
              = some ({ t with status := ns, updatedAt := some now
                               history := t.history
                                 ++ [⟨now, t.status, ns, approver, comments⟩] },
                      now + ttlSeconds))
      ∧ ((∀ t a r tr, (check_approval_status s now id).1 ≠ .found t a r tr) →
          ∃ r, update_approval_status s now id ns approver comments
              = (.notOk r, (check_approval_status s now id).2)) := by
  rcases hchk : check_approval_status s now id with ⟨cr, s1⟩
  constructor
  · intro t a r tr hfound
    have hcr : cr = CheckResult.found t a r tr := hfound
    subst hcr
    constructor
    · simp only [update_approval_status, hconn, Bool.true_eq_false, if_false, hchk]
    · simp only [update_approval_status, hconn, Bool.true_eq_false, if_false, hchk,
        setTicket]
      simp
  · intro hna
    cases cr with
    | found t a r tr => exact absurd rfl (hna t a r tr)
    | storeError =>
      exact ⟨.storeError, by
        simp only [update_approval_status, hconn, Bool.true_eq_false, if_false, hchk]⟩
    | notFound =>
      exact ⟨.notFound, by
        simp only [update_approval_status, hconn, Bool.true_eq_false, if_false, hchk]⟩
    | expired e =>
      exact ⟨.expired e, by
        simp only [update_approval_status, hconn, Bool.true_eq_false, if_false, hchk]⟩

/-- Witness for C8: approving the live pending ticket appends the single
PENDING_APPROVAL → APPROVED entry and re-persists it with the full TTL
window applied from the update time. -/
theorem update_status_behaviour_witness :
    ((storeWith pendingTicket).connected = true
      ∧ (check_approval_status (storeWith pendingTicket) 100 "t1").1
          = .found pendingTicket false false ((ttlSeconds : Int) - 100))
    ∧ (update_approval_status (storeWith pendingTicket) 100 "t1" "APPROVED"
          "human" (some "ok")
        = (.updated pendingTicket.status "APPROVED"
            { pendingTicket with status := "APPROVED", updatedAt := some 100
                                 history := pendingTicket.history
                                   ++ [⟨100, pendingTicket.status, "APPROVED",
                                        "human", some "ok"⟩] },
           setTicket (check_approval_status (storeWith pendingTicket) 100 "t1").2
             "t1"
             { pendingTicket with status := "APPROVED", updatedAt := some 100
                                  history := pendingTicket.history
                                    ++ [⟨100, pendingTicket.status, "APPROVED",
                                         "human", some "ok"⟩] }
             (100 + ttlSeconds))
      ∧ (update_approval_status (storeWith pendingTicket) 100 "t1" "APPROVED"
            "human" (some "ok")).2.tickets "t1"
          = some ({ pendingTicket with status := "APPROVED", updatedAt := some 100
                                       history := pendingTicket.history
                                         ++ [⟨100, pendingTicket.status, "APPROVED",
                                              "human", some "ok"⟩] },
                  100 + ttlSeconds)) := by
  have hfound : (check_approval_status (storeWith pendingTicket) 100 "t1").1
      = .found pendingTicket false false ((ttlSeconds : Int) - 100) := by decide
  exact ⟨⟨rfl, hfound⟩,
    (update_status_behaviour (storeWith pendingTicket) 100 "t1" "APPROVED" "human"
        (some "ok") rfl).1 pendingTicket false false ((ttlSeconds : Int) - 100) hfound⟩

/-! ### Claim C6: status transitions and history (corrected) -/

theorem check_found_snd (s : StoreState) (now : Nat) (id : String) (t : Ticket)
    (a r : Bool) (tr : Int) (s1 : StoreState)
    (h : check_approval_status s now id = (.found t a r tr, s1)) : s1 = s := by
  unfold check_approval_status at h
  by_cases hc : s.connected = false
  · rw [if_pos hc] at h
    simp at h
  · rw [if_neg hc] at h
    cases hg : storeGet s now id with
    | none =>
      rw [hg] at h
      simp at h
    | some t0 =>
      simp only [hg] at h
      by_cases he : now > t0.expiresAt
      · rw [if_pos he] at h
        simp at h
      · rw [if_neg he] at h
        have := congrArg Prod.snd h
        simpa using this.symm

theorem update_found_eq (s : StoreState) (now : Nat) (id ns approver : String)
    (comments : Option String) (t : Ticket) (a r : Bool) (tr : Int)
    (s1 : StoreState) (hconn : s.connected = true)
    (hchk : check_approval_status s now id = (.found t a r tr, s1)) :
    update_approval_status s now id ns approver comments
      = (.updated t.status ns
          { t with status := ns, updatedAt := some now
                   history := t.history
                     ++ [⟨now, t.status, ns, approver, comments⟩] },
         setTicket s1 id
           { t with status := ns, updatedAt := some now
                    history := t.history
                      ++ [⟨now, t.status, ns, approver, comments⟩] }
           (now + ttlSeconds)) := by
  simp only [update_approval_status, hconn, Bool.true_eq_false, if_false, hchk]

/-- Counterexample to claim C6 as stated: `update_approval_status`
validates only existence and non-expiry, so a REJECTED ticket is moved
straight to APPROVED — a transition outside the claimed edge set. -/
theorem ticket_edges_counterexample :
    updateTransition
        (update_approval_status
          ((update_approval_status (storeWith pendingTicket) 1 "t1" "REJECTED"
              "human" (some "no")).2)
          2 "t1" "APPROVED" "human2" (some "on second thought")).1
      = some ("REJECTED", "APPROVED")
    ∧ ¬ allowedEdgeSpec "REJECTED" "APPROVED" := by
  constructor
  · decide
  · decide

/-- Amended claim C6: create initializes PENDING_APPROVAL with an empty
history; every update appends exactly one history entry (the history is
never rewritten or truncated) but sets whatever status was requested,
with no edge validation; and execution itself respects the edges — a
found APPROVED ticket with a valid statement kind moves only to EXECUTED
or EXECUTION_FAILED, both allowed edges, appending one entry. -/
theorem ticket_lifecycle_amended (s : StoreState) (now : Nat)
    (id freshId sql requester ns approver executor : String)
    (comments : Option String) (impact : ImpactAnalysisData) (db : DbBehavior)
    (hconn : s.connected = true) :
    (∀ t, (create_approval_request s now freshId sql impact requester).1
          = .created t
        → t.status = "PENDING_APPROVAL" ∧ t.history = [])
    ∧ (∀ t a r tr, (check_approval_status s now id).1 = .found t a r tr →
        updateTransition (update_approval_status s now id ns approver comments).1
            = some (t.status, ns)
          ∧ (update_approval_status s now id ns approver comments).2.tickets id
              = some ({ t with status := ns, updatedAt := some now
                               history := t.history
                                 ++ [⟨now, t.status, ns, approver, comments⟩] },
                      now + ttlSeconds))
    ∧ (∀ t a r tr, (check_approval_status s now id).1 = .found t a r tr
        → t.status = "APPROVED" → t.sqlQuery ≠ ""
        → (get_query_type t.sqlQuery = "UPDATE"
            ∨ get_query_type t.sqlQuery = "DELETE"
            ∨ get_query_type t.sqlQuery = "INSERT")
        → ∃ final comment, (final = "EXECUTED" ∨ final = "EXECUTION_FAILED")
            ∧ allowedEdgeSpec t.status final
            ∧ (execute_approved_query s now id db executor).2.1.tickets id
                = some ({ t with status := final, updatedAt := some now
                                 history := t.history
                                   ++ [⟨now, t.status, final, executor, comment⟩] },
                        now + ttlSeconds)) := by
  refine ⟨?_, ?_, ?_⟩
  · intro t h
    simp only [create_approval_request, hconn, Bool.true_eq_false, if_false] at h
    cases h
    exact ⟨rfl, rfl⟩
  · intro t a r tr hfound
    have hpair : check_approval_status s now id
        = (.found t a r tr, (check_approval_status s now id).2) := by
      rw [← hfound]
    have he := update_found_eq s now id ns approver comments t a r tr _ hconn hpair
    constructor
    · rw [he]
      rfl
    · rw [he]
      simp [setTicket]
  · intro t a r tr hfound hst hq hkind
    have hpair : check_approval_status s now id
        = (.found t a r tr, (check_approval_status s now id).2) := by
      rw [← hfound]
    have hs : (check_approval_status s now id).2 = s :=
      check_found_snd s now id t a r tr _ hpair
    rw [hs] at hpair
    have hkc : ¬ (get_query_type t.sqlQuery ≠ "UPDATE"
        ∧ get_query_type t.sqlQuery ≠ "DELETE"
        ∧ get_query_type t.sqlQuery ≠ "INSERT") := by
      rcases hkind with h | h | h <;> simp [h]
    have hun : execute_approved_query s now id db executor
        = (.ran (execute_with_transaction db),
           (if (execute_with_transaction db).success = true then
              (update_approval_status s now id "EXECUTED" executor
                (some "Query executed successfully")).2
            else
              (update_approval_status s now id "EXECUTION_FAILED" executor
                (some "Query execution failed")).2), true) := by
      simp only [execute_approved_query, hpair]
      rw [if_neg (not_not_intro hst), if_neg hq, if_neg hkc]
    have hun2 : (execute_approved_query s now id db executor).2.1
        = (if (execute_with_transaction db).success = true then
            (update_approval_status s now id "EXECUTED" executor
              (some "Query executed successfully")).2
          else
            (update_approval_status s now id "EXECUTION_FAILED" executor
              (some "Query execution failed")).2) := by
      rw [hun]
    cases hsucc : (execute_with_transaction db).success with
    | true =>
      refine ⟨"EXECUTED", some "Query executed successfully", Or.inl rfl,
        Or.inr (Or.inl ⟨hst, Or.inl rfl⟩), ?_⟩
      rw [hun2, if_pos hsucc,
        update_found_eq s now id "EXECUTED" executor
          (some "Query executed successfully") t a r tr s hconn hpair]
      simp [setTicket]
    | false =>
      refine ⟨"EXECUTION_FAILED", some "Query execution failed", Or.inr rfl,
        Or.inr (Or.inl ⟨hst, Or.inr (Or.inl rfl)⟩), ?_⟩
      rw [hun2, if_neg (by simp [hsucc]),
        update_found_eq s now id "EXECUTION_FAILED" executor
          (some "Query execution failed") t a r tr s hconn hpair]
      simp [setTicket]

/-- Witness for the amended C6: a fresh ticket starts pending with empty
history; rejecting the pending ticket appends one entry and sets exactly
REJECTED; executing the approved UPDATE ticket moves it to an allowed
terminal state with one appended entry. -/
theorem ticket_lifecycle_amended_witness :
    (emptyStore.connected = true
      ∧ ((create_approval_request emptyStore 0 "f1" "UPDATE t SET a=1"
            sampleImpact "req").1
          = CreateResult.created
              { ticketId := "f1", status := "PENDING_APPROVAL"
                sqlQuery := "UPDATE t SET a=1", impact := sampleImpact
                requesterInfo := "req", createdAt := 0, expiresAt := 0 + ttlSeconds
                updatedAt := none, history := [] }
        ∧ ({ ticketId := "f1", status := "PENDING_APPROVAL"
             sqlQuery := "UPDATE t SET a=1", impact := sampleImpact
             requesterInfo := "req", createdAt := 0, expiresAt := 0 + ttlSeconds
             updatedAt := none, history := [] } : Ticket).status
              = "PENDING_APPROVAL"
        ∧ ({ ticketId := "f1", status := "PENDING_APPROVAL"
             sqlQuery := "UPDATE t SET a=1", impact := sampleImpact
             requesterInfo := "req", createdAt := 0, expiresAt := 0 + ttlSeconds
             updatedAt := none, history := [] } : Ticket).history = []))
    ∧ ((check_approval_status (storeWith pendingTicket) 100 "t1").1
          = .found pendingTicket false false ((ttlSeconds : Int) - 100)
      ∧ updateTransition (update_approval_status (storeWith pendingTicket) 100 "t1"
            "REJECTED" "human" (some "no")).1
          = some (pendingTicket.status, "REJECTED"))
    ∧ ((check_approval_status (storeWith approvedTicket) 100 "t3").1
          = .found approvedTicket true false ((ttlSeconds : Int) - 100)
      ∧ ∃ final comment, (final = "EXECUTED" ∨ final = "EXECUTION_FAILED")
          ∧ allowedEdgeSpec approvedTicket.status final
          ∧ (execute_approved_query (storeWith approvedTicket) 100 "t3" sampleDb
                "ops").2.1.tickets "t3"
              = some ({ approvedTicket with
                          status := final, updatedAt := some 100
                          history := approvedTicket.history
                            ++ [⟨100, approvedTicket.status, final, "ops", comment⟩] },
                      100 + ttlSeconds)) := by
  have h1 := (ticket_lifecycle_amended emptyStore 0 "x" "f1" "UPDATE t SET a=1"
      "req" "APPROVED" "a" "e" none sampleImpact sampleDb rfl).1
  have hfound2 : (check_approval_status (storeWith pendingTicket) 100 "t1").1
      = .found pendingTicket false false ((ttlSeconds : Int) - 100) := by decide
  have h2 := ((ticket_lifecycle_amended (storeWith pendingTicket) 100 "t1" "f1"
      "q" "req" "REJECTED" "human" "e" (some "no") sampleImpact sampleDb rfl).2.1
      pendingTicket false false ((ttlSeconds : Int) - 100) hfound2).1
  have hfound3 : (check_approval_status (storeWith approvedTicket) 100 "t3").1
      = .found approvedTicket true false ((ttlSeconds : Int) - 100) := by decide
  have h3 := (ticket_lifecycle_amended (storeWith approvedTicket) 100 "t3" "f1"
      "q" "req" "ns" "a" "ops" none sampleImpact sampleDb rfl).2.2
      approvedTicket true false ((ttlSeconds : Int) - 100) hfound3 rfl
      (by decide) (Or.inl (by decide))
  exact ⟨⟨rfl, rfl, (h1 _ rfl).1, (h1 _ rfl).2⟩, ⟨hfound2, h2⟩, ⟨hfound3, h3⟩⟩

/-! ### Claim C10: rollback logger (corrected) -/

theorem check_found_inv (s : StoreState) (now : Nat) (id : String) (t : Ticket)
    (a r : Bool) (tr : Int)
    (h : (check_approval_status s now id).1 = .found t a r tr) :
    storeGet s now id = some t ∧ ¬ now > t.expiresAt := by
  unfold check_approval_status at h
  by_cases hc : s.connected = false
  · rw [if_pos hc] at h
    exact absurd h (by simp)
  · rw [if_neg hc] at h
    cases hg : storeGet s now id with
    | none => simp [hg] at h
    | some t0 =>
      simp only [hg] at h
      by_cases he : now > t0.expiresAt
      · rw [if_pos he] at h
        simp at h
      · rw [if_neg he] at h
        have h' : CheckResult.found t0 (t0.status == "APPROVED")
            (t0.status == "REJECTED") ((t0.expiresAt : Int) - (now : Int))
            = CheckResult.found t a r tr := h
        injection h' with h1 h2 h3 h4
        subst h1
        exact ⟨rfl, he⟩

theorem check_snd_eq (s : StoreState) (now : Nat) (id : String) :
    (check_approval_status s now id).2 = s
      ∨ (check_approval_status s now id).2 = delTicket s id := by
  unfold check_approval_status
  by_cases hc : s.connected = false
  · rw [if_pos hc]
    exact Or.inl rfl
  · rw [if_neg hc]
    cases hg : storeGet s now id with
    | none => exact Or.inl rfl
    | some t0 =>
      simp only []
      by_cases he : now > t0.expiresAt
      · rw [if_pos he]
        exact Or.inr rfl
      · rw [if_neg he]
        exact Or.inl rfl

theorem check_snd_conn (s : StoreState) (now : Nat) (id : String) :
    ((check_approval_status s now id).2).connected = s.connected := by
  rcases check_snd_eq s now id with h | h
  · rw [h]
  · rw [h]
    rfl

theorem check_snd_logs (s : StoreState) (now : Nat) (id : String) :
    ((check_approval_status s now id).2).rollbackLogs = s.rollbackLogs := by
  rcases check_snd_eq s now id with h | h
  · rw [h]
  · rw [h]
    rfl

theorem update_snd_logs (s : StoreState) (now : Nat) (id ns ap : String)
    (cm : Option String) :
    ((update_approval_status s now id ns ap cm).2).rollbackLogs
      = s.rollbackLogs := by
  unfold update_approval_status
  by_cases hc : s.connected = false
  · rw [if_pos hc]
  · rw [if_neg hc]
    rcases hchk : check_approval_status s now id with ⟨cr, s1⟩
    have hlog : s1.rollbackLogs = s.rollbackLogs := by
      have h := check_snd_logs s now id
      rw [hchk] at h
      exact h
    cases cr <;> simp [hchk, setTicket, hlog]

theorem check_notFound_inv (s : StoreState) (now : Nat) (id : String)
    (s1 : StoreState) (h : check_approval_status s now id = (.notFound, s1)) :
    s1 = s ∧ storeGet s now id = none := by
  unfold check_approval_status at h
  by_cases hc : s.connected = false
  · rw [if_pos hc] at h
    simp at h
  · rw [if_neg hc] at h
    cases hg : storeGet s now id with
    | none =>
      simp only [hg] at h
      cases h
      exact ⟨rfl, rfl⟩
    | some t0 =>
      simp only [hg] at h
      by_cases he : now > t0.expiresAt
      · rw [if_pos he] at h
        simp at h
      · rw [if_neg he] at h
        simp at h

/-- Counterexample to claim C10 as stated: rolling back an unknown
ticket does return status "logged", but no retrieval-error note is
recorded (the lookup returns a clean not-found instead of raising), and
no ticket exists to transition to ROLLBACK_REQUESTED. -/
theorem rollback_unknown_counterexample :
    (rollback_operation emptyStore 5 "ghost"
        ⟨some "mistake", some "alice"⟩).1.status = "logged"
      ∧ (rollback_operation emptyStore 5 "ghost"
          ⟨some "mistake", some "alice"⟩).1.info.retrievalError = none
      ∧ (rollback_operation emptyStore 5 "ghost"
          ⟨some "mistake", some "alice"⟩).2.1.tickets "ghost" = none := by
  refine ⟨rfl, rfl, rfl⟩

/-- Amended claim C10: `rollback_operation` never raises and always
returns status "logged" without touching the relational database; it
persists the audit record {ticketId, requestedAt, operationInfo(reason,
requestedBy), and — when the ticket is found — originalQuery, riskLevel,
affectedTables} under the independent 7-day TTL; a retrieval-error note
is never recorded for a cleanly absent ticket; a found ticket is
transitioned to ROLLBACK_REQUESTED, while an absent one leaves the
ticket map untouched. -/
theorem rollback_amended (s : StoreState) (now : Nat) (id : String)
    (opInfo : OperationInfo) (hconn : s.connected = true) :
    (rollback_operation s now id opInfo).1.status = "logged"
      ∧ (rollback_operation s now id opInfo).2.2 = false
      ∧ (rollback_operation s now id opInfo).1.info.ticketId = id
      ∧ (rollback_operation s now id opInfo).1.info.requestedAt = now
      ∧ (rollback_operation s now id opInfo).1.info.operationInfo = opInfo
      ∧ (rollback_operation s now id opInfo).1.info.retrievalError = none
      ∧ (rollback_operation s now id opInfo).2.1.rollbackLogs id
          = some ((rollback_operation s now id opInfo).1.info,
                  now + rollbackTtlSeconds)
      ∧ (∀ t a r tr, (check_approval_status s now id).1 = .found t a r tr →
          (rollback_operation s now id opInfo).1.info.originalQuery
              = some t.sqlQuery
            ∧ (rollback_operation s now id opInfo).1.info.riskLevel
              = some t.impact.riskLevel
            ∧ (rollback_operation s now id opInfo).1.info.affectedTables
              = some t.impact.affectedTables
            ∧ (rollback_operation s now id opInfo).2.1.tickets id
              = some ({ t with status := "ROLLBACK_REQUESTED"
                               updatedAt := some now
                               history := t.history
                                 ++ [⟨now, t.status, "ROLLBACK_REQUESTED",
                                      opInfo.requestedBy.getD "system",
                                      some "Rollback operation logged. Manual intervention required."⟩] },
                      now + ttlSeconds))
      ∧ ((check_approval_status s now id).1 = .notFound →
          (rollback_operation s now id opInfo).2.1.tickets id = s.tickets id) := by
  rcases hchk : check_approval_status s now id with ⟨cr, s1⟩
  have hs1conn : s1.connected = true := by
    have h := check_snd_conn s now id
    rw [hchk] at h
    exact h.trans hconn
  have hlogs1 : s1.rollbackLogs = s.rollbackLogs := by
    have h := check_snd_logs s now id
    rw [hchk] at h
    exact h
  refine ⟨?_, ?_, ?_, ?_, ?_, ?_, ?_, ?_, ?_⟩
  · cases cr <;> simp [rollback_operation, hchk, hs1conn]
  · cases cr <;> simp [rollback_operation, hchk, hs1conn]
  · cases cr <;> simp [rollback_operation, hchk, hs1conn]
  · cases cr <;> simp [rollback_operation, hchk, hs1conn]
  · cases cr <;> simp [rollback_operation, hchk, hs1conn]
  · cases cr <;> simp [rollback_operation, hchk, hs1conn]
  · cases cr <;>
      simp [rollback_operation, hchk, hs1conn, update_snd_logs, hlogs1]
  · intro t a r tr hf
    cases cr with
    | found t0 a0 r0 tr0 =>
      have hf' : CheckResult.found t0 a0 r0 tr0 = CheckResult.found t a r tr := hf
      injection hf' with e1 e2 e3 e4
      subst e1
      subst e2
      subst e3
      subst e4
      have hs1 : s1 = s := check_found_snd s now id t0 a0 r0 tr0 s1 hchk
      subst hs1
      obtain ⟨hg, he⟩ := check_found_inv s1 now id t0 a0 r0 tr0 (by rw [hchk])
      have hpair2 : ∀ f, check_approval_status { s1 with rollbackLogs := f } now id
          = (.found t0 (t0.status == "APPROVED") (t0.status == "REJECTED")
              ((t0.expiresAt : Int) - (now : Int)), { s1 with rollbackLogs := f }) := by
        intro f
        have hcf : ({ s1 with rollbackLogs := f } : StoreState).connected = true := hconn
        have hgf : storeGet { s1 with rollbackLogs := f } now id = some t0 := hg
        unfold check_approval_status
        rw [if_neg (by rw [hcf]; simp)]
        simp only [hgf]
        rw [if_neg he]
      refine ⟨?_, ?_, ?_, ?_⟩
      · simp only [rollback_operation, hchk]
      · simp only [rollback_operation, hchk]
      · simp only [rollback_operation, hchk]
      · simp only [rollback_operation, hchk]
        rw [if_pos hconn]
        simp only []
        rw [update_found_eq _ now id "ROLLBACK_REQUESTED"
            (opInfo.requestedBy.getD "system")
            (some "Rollback operation logged. Manual intervention required.")
            t0 (t0.status == "APPROVED") (t0.status == "REJECTED")
            ((t0.expiresAt : Int) - (now : Int)) _ (by exact hconn) (hpair2 _)]
        simp [setTicket]
    | storeError => exact absurd hf (by simp)
    | notFound => exact absurd hf (by simp)
    | expired e => exact absurd hf (by simp)
  · intro hnf
    cases cr with
    | notFound =>
      obtain ⟨hs1, hg⟩ := check_notFound_inv s now id s1 hchk
      subst hs1
      have hpair2 : ∀ f, check_approval_status { s1 with rollbackLogs := f } now id
          = (.notFound, { s1 with rollbackLogs := f }) := by
        intro f
        have hcf : ({ s1 with rollbackLogs := f } : StoreState).connected = true := hconn
        have hgf : storeGet { s1 with rollbackLogs := f } now id = none := hg
        unfold check_approval_status
        rw [if_neg (by rw [hcf]; simp)]
        simp only [hgf]
      have hupd : ∀ f, update_approval_status { s1 with rollbackLogs := f } now id
          "ROLLBACK_REQUESTED" (opInfo.requestedBy.getD "system")
          (some "Rollback operation logged. Manual intervention required.")
          = (.notOk .notFound, { s1 with rollbackLogs := f }) := by
        intro f
        have hcf : ({ s1 with rollbackLogs := f } : StoreState).connected = true := hconn
        unfold update_approval_status
        rw [if_neg (by rw [hcf]; simp), hpair2 f]
      simp only [rollback_operation, hchk]
      rw [if_pos hconn]
      simp only []
      rw [hupd]
    | found t0 a0 r0 tr0 => exact absurd hnf (by simp)
    | storeError => exact absurd hnf (by simp)
    | expired e => exact absurd hnf (by simp)

/-- Witness for the amended C10: rolling back an unknown ticket logs the
audit record under the 7-day TTL with no retrieval-error note and leaves
the ticket map untouched; rolling back a live ticket carries its
snapshot and transitions it to ROLLBACK_REQUESTED. -/
theorem rollback_amended_witness :
    (emptyStore.connected = true
      ∧ (rollback_operation emptyStore 5 "ghost"
          ⟨some "mistake", some "alice"⟩).1.status = "logged"
      ∧ (rollback_operation emptyStore 5 "ghost"
          ⟨some "mistake", some "alice"⟩).2.2 = false
      ∧ (rollback_operation emptyStore 5 "ghost"
            ⟨some "mistake", some "alice"⟩).2.1.rollbackLogs "ghost"
          = some ((rollback_operation emptyStore 5 "ghost"
                    ⟨some "mistake", some "alice"⟩).1.info,
                  5 + rollbackTtlSeconds)
      ∧ (check_approval_status emptyStore 5 "ghost").1 = .notFound
      ∧ (rollback_operation emptyStore 5 "ghost"
            ⟨some "mistake", some "alice"⟩).2.1.tickets "ghost"
          = emptyStore.tickets "ghost")
    ∧ ((check_approval_status (storeWith pendingTicket) 100 "t1").1
          = .found pendingTicket false false ((ttlSeconds : Int) - 100)
      ∧ ((rollback_operation (storeWith pendingTicket) 100 "t1"
              ⟨some "mistake", some "alice"⟩).1.info.originalQuery
            = some pendingTicket.sqlQuery
        ∧ (rollback_operation (storeWith pendingTicket) 100 "t1"
              ⟨some "mistake", some "alice"⟩).1.info.riskLevel
            = some pendingTicket.impact.riskLevel
        ∧ (rollback_operation (storeWith pendingTicket) 100 "t1"
              ⟨some "mistake", some "alice"⟩).1.info.affectedTables
            = some pendingTicket.impact.affectedTables
        ∧ (rollback_operation (storeWith pendingTicket) 100 "t1"
              ⟨some "mistake", some "alice"⟩).2.1.tickets "t1"
            = some ({ pendingTicket with
                        status := "ROLLBACK_REQUESTED", updatedAt := some 100
                        history := pendingTicket.history
                          ++ [⟨100, pendingTicket.status, "ROLLBACK_REQUESTED",
                               "alice",
                               some "Rollback operation logged. Manual intervention required."⟩] },
                    100 + ttlSeconds))) := by
  have h1 := rollback_amended emptyStore 5 "ghost" ⟨some "mistake", some "alice"⟩ rfl
  have hnf : (check_approval_status emptyStore 5 "ghost").1 = .notFound := rfl
  have hf : (check_approval_status (storeWith pendingTicket) 100 "t1").1
      = .found pendingTicket false false ((ttlSeconds : Int) - 100) := by decide
  have h2 := rollback_amended (storeWith pendingTicket) 100 "t1"
    ⟨some "mistake", some "alice"⟩ rfl
  exact ⟨⟨rfl, h1.1, h1.2.1, h1.2.2.2.2.2.2.1, hnf,
      h1.2.2.2.2.2.2.2.2 hnf⟩,
    hf, h2.2.2.2.2.2.2.2.1 pendingTicket false false ((ttlSeconds : Int) - 100) hf⟩

/-! ### Claim C3: the two auto-approval branches (code bug in the
unified flow) -/

/-- Claim C3 evaluated on the code: the destructive workflow's
auto-approval branch really does create a ticket, immediately
self-approve it, and execute it through the approved-execution engine —
the resulting stored ticket is EXECUTED with the full two-entry audit
history and the database was called; but the unified workflow's
auto-approval branch fabricates a success payload (0 rows, "committed")
while creating no ticket, touching no store key, and issuing no database
call. -/
theorem auto_approval_paths_divergence :
    ((unified_auto_execute (storeWith pendingTicket)).1
        = ⟨"success", "Auto-approved query executed successfully", 0, "committed"⟩
      ∧ (unified_auto_execute (storeWith pendingTicket)).2.1 = storeWith pendingTicket
      ∧ (unified_auto_execute (storeWith pendingTicket)).2.2 = false
      ∧ (unified_auto_execute emptyStore).2.1.tickets "fresh" = none)
    ∧ ((destructive_auto_execute emptyStore 0 "fresh"
          "UPDATE users SET x = 1 WHERE id = 5" sampleImpact sampleDb).1
        = .executed "fresh"
            (.ran ⟨true, some 3, "committed", true, true⟩)
      ∧ (destructive_auto_execute emptyStore 0 "fresh"
          "UPDATE users SET x = 1 WHERE id = 5" sampleImpact sampleDb).2.2 = true
      ∧ (destructive_auto_execute emptyStore 0 "fresh"
            "UPDATE users SET x = 1 WHERE id = 5" sampleImpact sampleDb).2.1.tickets
            "fresh"
          = some ({ ticketId := "fresh", status := "EXECUTED"
                    sqlQuery := "UPDATE users SET x = 1 WHERE id = 5"
                    impact := sampleImpact
                    requesterInfo := "destructive_query_langgraph"
                    createdAt := 0, expiresAt := 0 + ttlSeconds
                    updatedAt := some 0
                    history := [⟨0, "PENDING_APPROVAL", "APPROVED", "system",
                                  some "Auto-approved due to LOW/MEDIUM risk level"⟩,
                                ⟨0, "APPROVED", "EXECUTED", "system",
                                  some "Query executed successfully"⟩] },
                  0 + ttlSeconds)) := by
  refine ⟨⟨rfl, rfl, rfl, rfl⟩, by decide, rfl, by decide⟩

/-! ### Claim C9: plan-probe rewrite and row extraction — list lemmas -/

theorem beginsWith_self_append (p l : List Char) :
    beginsWith p (p ++ l) = true := by
  induction p with
  | nil => rfl
  | cons c p' ih => simp [beginsWith, ih]

theorem beginsWith_elim (c : Char) (p l : List Char)
    (h : beginsWith (c :: p) l = true) :
    ∃ t, l = c :: t ∧ beginsWith p t = true := by
  cases l with
  | nil => simp [beginsWith] at h
  | cons c' t =>
    simp only [beginsWith, Bool.and_eq_true, beq_iff_eq] at h
    exact ⟨t, by rw [h.1], h.2⟩

theorem hasSub_of_beginsWith (pat l : List Char)
    (h : beginsWith pat l = true) : hasSub pat l = true := by
  cases l with
  | nil => simpa [hasSub] using h
  | cons c t => simp [hasSub, h]

theorem hasSub_append_left (pat x l : List Char)
    (h : hasSub pat l = true) : hasSub pat (x ++ l) = true := by
  induction x with
  | nil => simpa using h
  | cons c x' ih => simp [hasSub, ih]

theorem replOnce_head (pat rep l : List Char) (hne : pat ≠ [])
    (h : beginsWith pat l = true) :
    replOnce pat rep l = rep ++ l.drop pat.length := by
  cases l with
  | nil =>
    cases pat with
    | nil => exact absurd rfl hne
    | cons p ps => simp [beginsWith] at h
  | cons c t => simp [replOnce, h]

theorem dropWhile_of_head (p : Char → Bool) (c : Char) (t : List Char)
    (h : p c = false) : (c :: t).dropWhile p = c :: t := by
  simp [List.dropWhile_cons, h]

theorem trimL_append (d rest : List Char) (hd : d ≠ [])
    (hhead : ∀ c, d.head? = some c → c.isWhitespace = false)
    (hlast : ∀ c, d.getLast? = some c → c.isWhitespace = false) :
    trimL (d ++ rest) = d ++ (rest.reverse.dropWhile Char.isWhitespace).reverse := by
  unfold trimL
  cases hdc : d with
  | nil => exact absurd hdc hd
  | cons c0 d' =>
    have hc0 : c0.isWhitespace = false := hhead c0 (by rw [hdc]; rfl)
    subst hdc
    rw [List.cons_append, dropWhile_of_head _ _ _ hc0, ← List.cons_append,
      List.reverse_append]
    have hrevne : (c0 :: d').reverse ≠ [] := by simp
    have hrevhead : ∀ c, ((c0 :: d').reverse).head? = some c
        → c.isWhitespace = false := by
      intro c hc
      apply hlast
      rwa [List.head?_reverse] at hc
    rw [List.dropWhile_append]
    by_cases hre : (rest.reverse.dropWhile Char.isWhitespace) = []
    · rw [hre]
      have hkeep : List.dropWhile Char.isWhitespace ((c0 :: d').reverse)
          = (c0 :: d').reverse := by
        cases hrc : (c0 :: d').reverse with
        | nil => exact absurd hrc hrevne
        | cons c1 t1 =>
          have hc1 : c1.isWhitespace = false := by
            apply hrevhead
            rw [hrc]
            rfl
          exact dropWhile_of_head _ _ _ hc1
      simp only [hkeep]
      rw [if_pos List.isEmpty_nil, List.reverse_reverse]
      simp
    · rw [if_neg (by simpa [List.isEmpty_iff] using hre)]
      rw [List.reverse_append, List.reverse_reverse]

theorem wsplitAux_word (w : List Char) (hw : ∀ c ∈ w, c.isWhitespace = false) :
    ∀ (l acc : List Char), wsplitAux (w ++ l) acc = wsplitAux l (w.reverse ++ acc) := by
  induction w with
  | nil => intro l acc; simp
  | cons c w' ih =>
    intro l acc
    have hc : c.isWhitespace = false := hw c (by simp)
    have hw' : ∀ x ∈ w', x.isWhitespace = false := fun x hx => hw x (by simp [hx])
    rw [List.cons_append]
    show (if c.isWhitespace then _ else wsplitAux (w' ++ l) (c :: acc)) = _
    rw [if_neg (by simp [hc]), ih hw' l (c :: acc)]
    simp

theorem wsplitAux_space (l acc : List Char) (hacc : acc ≠ []) :
    wsplitAux (' ' :: l) acc = acc.reverse :: wsplitAux l [] := by
  show (if (' ').isWhitespace then
      (if acc.isEmpty then wsplitAux l [] else acc.reverse :: wsplitAux l [])
    else _) = _
  rw [if_pos (by decide), if_neg (by simpa [List.isEmpty_iff] using hacc)]

theorem pysplit_joinSp : ∀ ws : List (List Char),
    (∀ w ∈ ws, goodWord w) → pysplit (joinSp ws) = ws := by
  intro ws
  induction ws with
  | nil => intro _; rfl
  | cons w ws' ih =>
    intro hall
    obtain ⟨hne, hnw⟩ := hall w (by simp)
    cases ws' with
    | nil =>
      show pysplit (joinSp [w]) = [w]
      unfold pysplit
      have e := wsplitAux_word w hnw [] []
      rw [List.append_nil] at e
      have hrev : w.reverse ≠ [] := by simpa using hne
      rw [show joinSp [w] = w from rfl, e]
      simp only [wsplitAux]
      rw [if_neg (by simpa [List.isEmpty_iff] using hrev)]
      simp
    | cons w2 ws'' =>
      have hall' : ∀ x ∈ w2 :: ws'', goodWord x := fun x hx => hall x (by simp [hx])
      show pysplit (joinSp (w :: w2 :: ws'')) = _
      unfold pysplit
      rw [show joinSp (w :: w2 :: ws'') = w ++ ' ' :: joinSp (w2 :: ws'') from rfl,
        wsplitAux_word w hnw _ [], List.append_nil,
        wsplitAux_space _ _ (by simpa using hne)]
      rw [List.reverse_reverse]
      exact congrArg (w :: ·) (ih hall')

theorem findWhereIdx_no : ∀ ps : List (List Char),
    (∀ p ∈ ps, upperL p ≠ "WHERE".data) → findWhereIdx ps = none := by
  intro ps
  induction ps with
  | nil => intro _; rfl
  | cons p ps' ih =>
    intro h
    unfold findWhereIdx
    rw [if_neg (h p (by simp)), ih (fun x hx => h x (by simp [hx]))]
    rfl

theorem findWhereIdx_yes : ∀ (l1 l2 : List (List Char)),
    (∀ p ∈ l1, upperL p ≠ "WHERE".data)
    → findWhereIdx (l1 ++ "WHERE".data :: l2) = some l1.length := by
  intro l1
  induction l1 with
  | nil =>
    intro l2 _
    show findWhereIdx ("WHERE".data :: l2) = some 0
    unfold findWhereIdx
    rw [if_pos (by decide)]
  | cons p l1' ih =>
    intro l2 h
    rw [List.cons_append]
    unfold findWhereIdx
    rw [if_neg (h p (by simp)), ih l2 (fun x hx => h x (by simp [hx]))]
    simp [Nat.add_comm]

mutual
theorem extract_eq_dfs : ∀ p : PlanNode,
    extract_rows_from_plan p = ((preNodes p).filterMap nodeEstimate).head?
  | .node pr r ch => by
    have hch := firstRows_eq_dfs ch
    cases pr with
    | some n =>
      simp [extract_rows_from_plan, preNodes, nodeEstimate, List.filterMap_cons]
    | none =>
      cases r with
      | some m =>
        simp [extract_rows_from_plan, preNodes, nodeEstimate, List.filterMap_cons]
      | none =>
        simp [extract_rows_from_plan, preNodes, nodeEstimate,
          List.filterMap_cons, hch]
theorem firstRows_eq_dfs : ∀ f : PlanForest,
    firstRows f = ((preForest f).filterMap nodeEstimate).head?
  | .nil => rfl
  | .cons c cs => by
    have hc := extract_eq_dfs c
    have hcs := firstRows_eq_dfs cs
    simp only [firstRows, preForest, List.filterMap_append, List.head?_append]
    cases he : extract_rows_from_plan c with
    | some n =>
      rw [he] at hc
      rw [← hc]
      simp
    | none =>
      rw [he] at hc
      rw [← hc]
      simp [hcs]
end

theorem upperL_append (a b : List Char) :
    upperL (a ++ b) = upperL a ++ upperL b := by
  simp [upperL]

theorem update_qu_form (t : List Char) (more : List (List Char)) :
    upperL (trimL (joinSp ("UPDATE".data :: t :: more)))
      = "UPDATE".data
        ++ upperL (((' ' :: joinSp (t :: more)).reverse.dropWhile
              Char.isWhitespace).reverse) := by
  have hj : joinSp ("UPDATE".data :: t :: more)
      = "UPDATE".data ++ (' ' :: joinSp (t :: more)) := rfl
  rw [hj, trimL_append "UPDATE".data _ (by decide)
      (by intro c hc; cases hc; decide) (by intro c hc; cases hc; decide),
    upperL_append]
  rw [show upperL "UPDATE".data = "UPDATE".data from by decide]

theorem delete_qu_form (rest : List Char) :
    upperL (trimL ("DELETE FROM".data ++ rest))
      = "DELETE FROM".data
        ++ upperL ((rest.reverse.dropWhile Char.isWhitespace).reverse) := by
  rw [trimL_append "DELETE FROM".data _ (by decide)
      (by intro c hc; cases hc; decide) (by intro c hc; cases hc; decide),
    upperL_append]
  rw [show upperL "DELETE FROM".data = "DELETE FROM".data from by decide]

/-- Claim C9: the plan-probe path rewrites `UPDATE t SET ... [WHERE c]`
and `DELETE FROM t [WHERE c]` into `SELECT * FROM t [WHERE c]`, produces
no probe for INSERT, extracts the row estimate by depth-first search
preferring a node's direct row field and otherwise taking the first
value found among the children (formalised: the extractor returns the
head of the DFS preorder's node estimates), and a successful probe
overrides the impact estimate with that row count at confidence
"high". -/
theorem plan_probe_matches_claim :
    (∀ (t : List Char) (mid wc : List (List Char)),
      goodWord t → (∀ w ∈ mid, goodWord w) → (∀ w ∈ wc, goodWord w)
      → upperL t ≠ "WHERE".data → (∀ w ∈ mid, upperL w ≠ "WHERE".data)
      → convert_to_explain_query
          ⟨joinSp ("UPDATE".data :: t :: (mid ++ "WHERE".data :: wc))⟩
        = some ⟨"SELECT * FROM ".data ++ t
            ++ ' ' :: joinSp ("WHERE".data :: wc)⟩)
    ∧ (∀ (t : List Char) (mid : List (List Char)),
      goodWord t → (∀ w ∈ mid, goodWord w)
      → upperL t ≠ "WHERE".data → (∀ w ∈ mid, upperL w ≠ "WHERE".data)
      → convert_to_explain_query ⟨joinSp ("UPDATE".data :: t :: mid)⟩
        = some ⟨"SELECT * FROM ".data ++ t⟩)
    ∧ (∀ rest : List Char,
        convert_to_explain_query ⟨"DELETE FROM".data ++ rest⟩
          = some ⟨"SELECT * FROM".data ++ rest⟩)
    ∧ (∀ sql : String, beginsWith "INSERT".data (upperL (trimL sql.data)) = true
        → convert_to_explain_query sql = none)
    ∧ (∀ p : PlanNode, extract_rows_from_plan p
        = ((preNodes p).filterMap nodeEstimate).head?)
    ∧ (∀ (sql : String) (planOf : String → Option PlanNode)
        (agentEst : ImpactEstimate) (n : Int),
        get_explain_analysis sql planOf = .success (some n)
        → merge_explain_estimate agentEst (get_explain_analysis sql planOf)
            = ⟨"explain_analyze", .num n, "high"⟩) := by
  refine ⟨?_, ?_, ?_, ?_, extract_eq_dfs, ?_⟩
  · intro t mid wc ht hmid hwc htW hmidW
    have hall : ∀ w ∈ ("UPDATE".data :: t :: (mid ++ "WHERE".data :: wc)),
        goodWord w := by
      intro w hw
      simp only [List.mem_cons, List.mem_append] at hw
      rcases hw with rfl | rfl | hw | rfl | hw
      · decide
      · exact ht
      · exact hmid w hw
      · decide
      · exact hwc w hw
    have hsplit := pysplit_joinSp _ hall
    have hpre : beginsWith "UPDATE".data
        (upperL (trimL (joinSp
          ("UPDATE".data :: t :: (mid ++ "WHERE".data :: wc))))) = true := by
      rw [update_qu_form]
      exact beginsWith_self_append _ _
    have hassoc : ("UPDATE".data :: t :: (mid ++ "WHERE".data :: wc))
        = ("UPDATE".data :: t :: mid) ++ ("WHERE".data :: wc) := by simp
    have hfw : findWhereIdx ("UPDATE".data :: t :: (mid ++ "WHERE".data :: wc))
        = some (("UPDATE".data :: t :: mid).length) := by
      rw [hassoc]
      apply findWhereIdx_yes
      intro p hp
      simp only [List.mem_cons] at hp
      rcases hp with rfl | rfl | hp
      · decide
      · exact htW
      · exact hmidW p hp
    unfold convert_to_explain_query
    simp only []
    rw [if_pos hpre, hsplit]
    rw [if_neg (show ¬ ("UPDATE".data :: t :: (mid ++ "WHERE".data :: wc)).length < 2
      from by simp)]
    rw [hfw]
    simp only []
    rw [if_pos (show ("UPDATE".data :: t :: mid).length > 0 from by simp)]
    rw [show ("UPDATE".data :: t :: (mid ++ "WHERE".data :: wc)).drop
          ("UPDATE".data :: t :: mid).length
        = "WHERE".data :: wc from by rw [hassoc]; exact List.drop_left _ _]
    rfl
  · intro t mid ht hmid htW hmidW
    have hall : ∀ w ∈ ("UPDATE".data :: t :: mid), goodWord w := by
      intro w hw
      simp only [List.mem_cons] at hw
      rcases hw with rfl | rfl | hw
      · decide
      · exact ht
      · exact hmid w hw
    have hsplit := pysplit_joinSp _ hall
    have hpre : beginsWith "UPDATE".data
        (upperL (trimL (joinSp ("UPDATE".data :: t :: mid)))) = true := by
      rw [update_qu_form]
      exact beginsWith_self_append _ _
    have hfw : findWhereIdx ("UPDATE".data :: t :: mid) = none := by
      apply findWhereIdx_no
      intro p hp
      simp only [List.mem_cons] at hp
      rcases hp with rfl | rfl | hp
      · decide
      · exact htW
      · exact hmidW p hp
    unfold convert_to_explain_query
    simp only []
    rw [if_pos hpre, hsplit]
    rw [if_neg (show ¬ ("UPDATE".data :: t :: mid).length < 2 from by simp)]
    rw [hfw]
    rfl
  · intro rest
    have hqu := delete_qu_form rest
    have hnupd : beginsWith "UPDATE".data
        (upperL (trimL ("DELETE FROM".data ++ rest))) = false := by
      rw [hqu]
      rfl
    have hdel : beginsWith "DELETE".data
        (upperL (trimL ("DELETE FROM".data ++ rest))) = true := by
      rw [hqu,
        show ("DELETE FROM".data
            ++ upperL ((rest.reverse.dropWhile Char.isWhitespace).reverse))
          = "DELETE".data
            ++ (" FROM".data
              ++ upperL ((rest.reverse.dropWhile Char.isWhitespace).reverse))
          from rfl]
      exact beginsWith_self_append _ _
    have hfrom : hasSub "FROM".data (upperL ("DELETE FROM".data ++ rest))
        = true := by
      rw [upperL_append,
        show upperL "DELETE FROM".data = "DELETE FROM".data from by decide,
        show ("DELETE FROM".data ++ upperL rest)
          = "DELETE ".data ++ ("FROM".data ++ upperL rest) from rfl]
      exact hasSub_append_left _ _ _
        (hasSub_of_beginsWith _ _ (beginsWith_self_append _ _))
    have hn1 : ¬ (beginsWith "UPDATE".data
        (upperL (trimL ("DELETE FROM".data ++ rest))) = true) := by
      simp only [hnupd]
      simp
    unfold convert_to_explain_query
    simp only []
    rw [if_neg hn1, if_pos hdel, if_pos hfrom]
    rw [replOnce_head _ _ _ (by decide)
      (show beginsWith "DELETE".data ("DELETE FROM".data ++ rest) = true
        from rfl)]
    rfl
  · intro sql h
    obtain ⟨t1, hq, _⟩ := beginsWith_elim 'I' "NSERT".data _ h
    unfold convert_to_explain_query
    simp only []
    rw [hq]
    simp [beginsWith]
  · intro sql planOf agentEst n h
    rw [h]
    rfl

/-- Witness for C9: the spec's `UPDATE users SET x = 1 WHERE id = 5`
rewrites to `SELECT * FROM users WHERE id = 5`; an INSERT has no probe;
a successful probe whose plan carries `"Plan Rows" = 42` overrides the
agent estimate with 42 rows at confidence "high". -/
theorem plan_probe_matches_claim_witness :
    (goodWord "users".data
      ∧ (∀ w ∈ ["SET".data, "x".data, "=".data, "1".data], goodWord w)
      ∧ (∀ w ∈ ["id".data, "=".data, "5".data], goodWord w)
      ∧ upperL "users".data ≠ "WHERE".data
      ∧ (∀ w ∈ ["SET".data, "x".data, "=".data, "1".data],
          upperL w ≠ "WHERE".data)
      ∧ convert_to_explain_query
          ⟨joinSp ("UPDATE".data :: "users".data
            :: (["SET".data, "x".data, "=".data, "1".data]
              ++ "WHERE".data :: ["id".data, "=".data, "5".data]))⟩
        = some ⟨"SELECT * FROM ".data ++ "users".data
            ++ ' ' :: joinSp ("WHERE".data :: ["id".data, "=".data, "5".data])⟩)
    ∧ (beginsWith "INSERT".data
          (upperL (trimL ("INSERT INTO t VALUES (1)" : String).data)) = true
      ∧ convert_to_explain_query "INSERT INTO t VALUES (1)" = none)
    ∧ (get_explain_analysis "UPDATE t SET a = 1"
          (fun _ => some (.node (some 42) none .nil)) = .success (some 42)
      ∧ merge_explain_estimate ⟨"heuristic_estimation", .num 1, "low"⟩
          (get_explain_analysis "UPDATE t SET a = 1"
            (fun _ => some (.node (some 42) none .nil)))
        = ⟨"explain_analyze", .num 42, "high"⟩) := by
  have hM : get_explain_analysis "UPDATE t SET a = 1"
      (fun _ => some (.node (some 42) none .nil)) = .success (some 42) := by
    decide
  have hI : beginsWith "INSERT".data
      (upperL (trimL ("INSERT INTO t VALUES (1)" : String).data)) = true := by
    decide
  refine ⟨⟨by decide, by decide, by decide, by decide, by decide,
      plan_probe_matches_claim.1 "users".data
        ["SET".data, "x".data, "=".data, "1".data]
        ["id".data, "=".data, "5".data]
        (by decide) (by decide) (by decide) (by decide) (by decide)⟩,
    ⟨hI, plan_probe_matches_claim.2.2.2.1 "INSERT INTO t VALUES (1)" hI⟩,
    hM, plan_probe_matches_claim.2.2.2.2.2 "UPDATE t SET a = 1"
      (fun _ => some (.node (some 42) none .nil))
      ⟨"heuristic_estimation", .num 1, "low"⟩ 42 hM⟩

end DBAgent
